import Mathlib

/-!
Verification of the request admission, validation and caching layer of the
`dfyadgen` repository (two Next.js API routes, `src/app/api/generate-ad/route.ts`
and `src/app/api/inspect-ad/route.ts`).

The embedding is a shallow one: the JSON values exchanged by the routes are an
inductive type, the zod schemas become issue-producing checkers, the cache-key
derivation (`namespace + base64(JSON.stringify(validated))`) is implemented
byte for byte (UTF-8 encoding and base64 included), and each `POST` handler
becomes a pure function from an environment (provider outcome, cache-store
failure flags, `NODE_ENV`), the current time, the key-value store and the
rate-limiter state to an outcome carrying the HTTP response, the updated
stores and a trace of the side effects that were reached.

The `@upstash/ratelimit` sliding-window limiter is a third-party dependency
whose internals are not part of the repository; it is modelled from the spec:
an admission controller that counts admitted requests per key in a trailing
24-hour interval against a quota of 3, returning the window's reset timestamp
on rejection (spec sections 4.1 and the glossary entry for sliding windows).
Redis TTL expiry of cache entries is not modelled: every claim about the cache
quantifies over calls made within the cache TTL, so the store is an
association list whose entries also record the `ex` argument passed to
`kv.set`.
-/

/-- JSON values as delivered by `request.json()` / `JSON.parse`.  Numbers are
modelled as integers (no claim touches fractional numbers).  Objects are
association lists with the first binding of a key taken as its value. -/
inductive Json where
  | null : Json
  | bool (b : Bool) : Json
  | num (n : Int) : Json
  | str (s : String) : Json
  | arr (items : List Json) : Json
  | obj (fields : List (String × Json)) : Json

/-- Lookup in a string-keyed association list (first binding wins). -/
def alookup {α : Type} (k : String) : List (String × α) → Option α
  | [] => none
  | (k', v) :: rest => if k' = k then some v else alookup k rest

/-- Property access `j[k]` on a JSON value: `none` models JavaScript
`undefined` (missing key or non-object receiver). -/
def getField (j : Json) (k : String) : Option Json :=
  match j with
  | Json.obj fields => alookup k fields
  | _ => none

/-- JavaScript truthiness of `j[k]`, used by the route's
`if (!parsed.ads)` / `if (!analysis.grade || !analysis.suggestions)` checks:
`undefined`, `null`, `false`, `0` and the empty string are falsy. -/
def truthy : Option Json → Bool
  | none => false
  | some Json.null => false
  | some (Json.bool b) => b
  | some (Json.num n) => n != 0
  | some (Json.str s) => s != ""
  | some (Json.arr _) => true
  | some (Json.obj _) => true

/-- Length of a string in UTF-16 code units, which is what JavaScript's
`String.length` (and hence zod's `min`/`max` checks) measures. -/
def utf16Len (s : String) : Nat :=
  (s.data.map (fun c => if c.toNat < 65536 then 1 else 2)).sum

/-- One zod validation issue: the path of the offending field and a message. -/
structure ZodIssue where
  path : List String
  message : String
deriving DecidableEq, Repr

def tooSmallMsg (n : Nat) : String :=
  "String must contain at least " ++ toString n ++ " character(s)"

def tooBigMsg (n : Nat) : String :=
  "String must contain at most " ++ toString n ++ " character(s)"

/-- Check of `z.string().min(minL).max(maxL)` at key `name`: a missing key is
reported as required, a non-string as a type error, and the length bounds are
checked in UTF-16 code units. -/
def checkString (name : String) (minL maxL : Nat) : Option Json → List ZodIssue
  | none => [⟨[name], "Required"⟩]
  | some (Json.str s) =>
      (if utf16Len s < minL then [⟨[name], tooSmallMsg minL⟩] else [])
        ++ (if maxL < utf16Len s then [⟨[name], tooBigMsg maxL⟩] else [])
  | some _ => [⟨[name], "Expected string"⟩]

/-- Check of `z.string().max(maxL).optional()` at key `name`: a missing key is
accepted. -/
def checkOptString (name : String) (maxL : Nat) : Option Json → List ZodIssue
  | none => []
  | some (Json.str s) => if maxL < utf16Len s then [⟨[name], tooBigMsg maxL⟩] else []
  | some _ => [⟨[name], "Expected string"⟩]

/-- Check of `z.enum(values)` at key `name`. -/
def checkEnum (name : String) (values : List String) : Option Json → List ZodIssue
  | none => [⟨[name], "Required"⟩]
  | some (Json.str s) =>
      if values.contains s then [] else [⟨[name], "Invalid enum value"⟩]
  | some _ => [⟨[name], "Invalid enum value"⟩]

/-- A field rule of the two zod object schemas: a required bounded string, an
optional bounded string, or a closed enum. -/
inductive FieldRule where
  | str (minL maxL : Nat) : FieldRule
  | opt (maxL : Nat) : FieldRule
  | enum (values : List String) : FieldRule
deriving DecidableEq, Repr

/-- Interpretation of one field rule at key `name`. -/
def ruleCheck (name : String) (r : FieldRule) (v : Option Json) : List ZodIssue :=
  match r with
  | FieldRule.str mn mx => checkString name mn mx v
  | FieldRule.opt mx => checkOptString name mx v
  | FieldRule.enum vs => checkEnum name vs v

def brandVoices : List String :=
  ["Professional", "Friendly", "Witty", "Urgent", "Inspirational"]

def keyEmotions : List String :=
  ["FOMO", "Trust", "Excitement", "Curiosity", "Anger/Solve Pain"]

def adFormats : List String :=
  ["Single Image", "Carousel", "Video", "Story"]

def industries : List String :=
  ["General", "Health", "Finance", "E-commerce", "SaaS", "Real Estate", "Other"]

def preferredCTAs : List String :=
  ["Shop Now", "Learn More", "Get Offer", "Sign Up", "Book Now", "Claim Discount"]

def visualDirections : List String :=
  ["Lifestyle", "Product Close-Up", "Before/After", "User-Generated", "Infographic"]

def adTypes : List String :=
  ["facebook", "instagram", "google-search", "google-display"]

/-- The `GenerateAdSchema` zod object of `generate-ad/route.ts`, field by
field and in declaration order. -/
def genSchema : List (String × FieldRule) :=
  [ ("targetAudience", FieldRule.str 10 100),
    ("goal", FieldRule.str 10 100),
    ("uniqueSellingPoint", FieldRule.str 10 200),
    ("contextDescription", FieldRule.str 20 500),
    ("brandVoice", FieldRule.enum brandVoices),
    ("keyEmotion", FieldRule.enum keyEmotions),
    ("competitors", FieldRule.opt 100),
    ("adFormat", FieldRule.enum adFormats),
    ("industry", FieldRule.enum industries),
    ("preferredCTA", FieldRule.enum preferredCTAs),
    ("visualDirection", FieldRule.enum visualDirections) ]

/-- The `InspectAdSchema` zod object of `inspect-ad/route.ts`. -/
def inspSchema : List (String × FieldRule) :=
  [ ("headline", FieldRule.str 5 120),
    ("body", FieldRule.str 10 500),
    ("cta", FieldRule.str 2 50),
    ("offerDescription", FieldRule.str 10 500),
    ("websiteOrBrand", FieldRule.opt 50),
    ("adType", FieldRule.enum adTypes),
    ("industry", FieldRule.enum industries) ]

/-- All issues a schema collects on a body: zod checks every field of the
shape and gathers the issues; a non-object body yields a single root-path
type issue. -/
def schemaIssues (schema : List (String × FieldRule)) (j : Json) : List ZodIssue :=
  match j with
  | Json.obj _ => (schema.map (fun p => ruleCheck p.1 p.2 (getField j p.1))).flatten
  | _ => [⟨[], "Expected object"⟩]

def genIssues (j : Json) : List ZodIssue := schemaIssues genSchema j

def inspIssues (j : Json) : List ZodIssue := schemaIssues inspSchema j

/-- Validated body of the generation endpoint (`GenerateAdSchema.parse`). -/
structure GenerateAdRequest where
  targetAudience : String
  goal : String
  uniqueSellingPoint : String
  contextDescription : String
  brandVoice : String
  keyEmotion : String
  competitors : Option String
  adFormat : String
  industry : String
  preferredCTA : String
  visualDirection : String
deriving DecidableEq, Repr

/-- Validated body of the inspection endpoint (`InspectAdSchema.safeParse`). -/
structure InspectAdRequest where
  headline : String
  body : String
  cta : String
  offerDescription : String
  websiteOrBrand : Option String
  adType : String
  industry : String
deriving DecidableEq, Repr

/-- String value of `j[k]` (only consulted once validation has succeeded, so
the default is never reached on validated input). -/
def getStr (j : Json) (k : String) : String :=
  match getField j k with
  | some (Json.str s) => s
  | _ => ""

/-- Optional string value of `j[k]`. -/
def getOptStr (j : Json) (k : String) : Option String :=
  match getField j k with
  | some (Json.str s) => some s
  | _ => none

/-- Validation pipeline of `GenerateAdSchema.parse`: either the collected
issues (thrown as a `ZodError` in the route) or the validated record. -/
def validateGen (j : Json) : Except (List ZodIssue) GenerateAdRequest :=
  match genIssues j with
  | [] => Except.ok
      { targetAudience := getStr j "targetAudience",
        goal := getStr j "goal",
        uniqueSellingPoint := getStr j "uniqueSellingPoint",
        contextDescription := getStr j "contextDescription",
        brandVoice := getStr j "brandVoice",
        keyEmotion := getStr j "keyEmotion",
        competitors := getOptStr j "competitors",
        adFormat := getStr j "adFormat",
        industry := getStr j "industry",
        preferredCTA := getStr j "preferredCTA",
        visualDirection := getStr j "visualDirection" }
  | issues => Except.error issues

/-- Validation pipeline of `InspectAdSchema.safeParse`. -/
def validateInsp (j : Json) : Except (List ZodIssue) InspectAdRequest :=
  match inspIssues j with
  | [] => Except.ok
      { headline := getStr j "headline",
        body := getStr j "body",
        cta := getStr j "cta",
        offerDescription := getStr j "offerDescription",
        websiteOrBrand := getOptStr j "websiteOrBrand",
        adType := getStr j "adType",
        industry := getStr j "industry" }
  | issues => Except.error issues

/-- Join of a zod issue path with `'.'`, as in `e.path.join('.')`. -/
def pathJoin : List String → String
  | [] => ""
  | [p] => p
  | p :: ps => p ++ "." ++ pathJoin ps

def hexDigit (n : Nat) : Char := "0123456789abcdef".data.getD n '0'

/-- Escape of one character under `JSON.stringify`. -/
def escapeChar (c : Char) : String :=
  if c = '"' then "\\\""
  else if c = '\\' then "\\\\"
  else if c = '\x08' then "\\b"
  else if c = '\x0c' then "\\f"
  else if c = '\n' then "\\n"
  else if c = '\r' then "\\r"
  else if c = '\t' then "\\t"
  else if c.toNat < 32 then
    "\\u00" ++ String.singleton (hexDigit (c.toNat / 16))
      ++ String.singleton (hexDigit (c.toNat % 16))
  else String.singleton c

def jsonEscape (s : String) : String := String.join (s.data.map escapeChar)

def jstr (s : String) : String := "\"" ++ jsonEscape s ++ "\""

/-- Serialization `JSON.stringify(validated)` of a validated generation body.
zod's `parse` rebuilds the object in shape-declaration order and leaves an
absent optional key absent, so the key order is fixed and `competitors` is
omitted when it was not supplied (`JSON.stringify` also drops `undefined`
values). -/
def stringifyGen (r : GenerateAdRequest) : String :=
  "\x7b" ++ "\"targetAudience\":" ++ jstr r.targetAudience
    ++ ",\"goal\":" ++ jstr r.goal
    ++ ",\"uniqueSellingPoint\":" ++ jstr r.uniqueSellingPoint
    ++ ",\"contextDescription\":" ++ jstr r.contextDescription
    ++ ",\"brandVoice\":" ++ jstr r.brandVoice
    ++ ",\"keyEmotion\":" ++ jstr r.keyEmotion
    ++ (match r.competitors with
        | some c => ",\"competitors\":" ++ jstr c
        | none => "")
    ++ ",\"adFormat\":" ++ jstr r.adFormat
    ++ ",\"industry\":" ++ jstr r.industry
    ++ ",\"preferredCTA\":" ++ jstr r.preferredCTA
    ++ ",\"visualDirection\":" ++ jstr r.visualDirection
    ++ "\x7d"

/-- Serialization `JSON.stringify(validated)` of a validated inspection body. -/
def stringifyInsp (r : InspectAdRequest) : String :=
  "\x7b" ++ "\"headline\":" ++ jstr r.headline
    ++ ",\"body\":" ++ jstr r.body
    ++ ",\"cta\":" ++ jstr r.cta
    ++ ",\"offerDescription\":" ++ jstr r.offerDescription
    ++ (match r.websiteOrBrand with
        | some w => ",\"websiteOrBrand\":" ++ jstr w
        | none => "")
    ++ ",\"adType\":" ++ jstr r.adType
    ++ ",\"industry\":" ++ jstr r.industry
    ++ "\x7d"

/-- UTF-8 bytes of one character (`Buffer.from(string)` encodes UTF-8). -/
def utf8Bytes (c : Char) : List Nat :=
  let n := c.toNat
  if n < 128 then [n]
  else if n < 2048 then [192 + n / 64, 128 + n % 64]
  else if n < 65536 then [224 + n / 4096, 128 + n / 64 % 64, 128 + n % 64]
  else [240 + n / 262144, 128 + n / 4096 % 64, 128 + n / 64 % 64, 128 + n % 64]

def strBytes (s : String) : List Nat := (s.data.map utf8Bytes).flatten

def b64Alphabet : List Char :=
  "ABCDEFGHIJKLMNOPQRSTUVWXYZabcdefghijklmnopqrstuvwxyz0123456789+/".data

def b64Char (n : Nat) : Char := b64Alphabet.getD n 'A'

/-- Standard base64 of a byte list (`Buffer.prototype.toString('base64')`). -/
def base64Encode : List Nat → String
  | [] => ""
  | [a] => String.mk [b64Char (a / 4), b64Char (a % 4 * 16)] ++ "=="
  | [a, b] =>
      String.mk [b64Char (a / 4), b64Char (a % 4 * 16 + b / 16), b64Char (b % 16 * 4)]
        ++ "="
  | a :: b :: c :: rest =>
      String.mk [b64Char (a / 4), b64Char (a % 4 * 16 + b / 16),
        b64Char (b % 16 * 4 + c / 64), b64Char (c % 64)] ++ base64Encode rest

/-- Cache key of the generation route:
`gen-ad:${Buffer.from(JSON.stringify(validated)).toString('base64')}`. -/
def genCacheKey (r : GenerateAdRequest) : String :=
  "gen-ad:" ++ base64Encode (strBytes (stringifyGen r))

/-- Cache key of the inspection route:
`inspect:${Buffer.from(JSON.stringify(validated)).toString('base64')}`. -/
def inspCacheKey (r : InspectAdRequest) : String :=
  "inspect:" ++ base64Encode (strBytes (stringifyInsp r))

/-- Rate-limiter state: for each fully prefixed limiter key, the timestamps
(most recent first) of the requests that were admitted under that key. -/
abbrev LimiterState := List (String × List Nat)

/-- Result of one `ratelimit.limit` call. -/
structure LimitResult where
  success : Bool
  reset : Nat
  state : LimiterState
deriving DecidableEq, Repr

/-- Modelled from the spec: the `@upstash/ratelimit` sliding-window limiter
configured as `Ratelimit.slidingWindow(3, '86400s')` in both routes (the
library internals are not part of this repository).  Per the spec's
sliding-window description it counts the admitted requests for `key` in the
trailing `window` seconds; a request is admitted while that count is below
`limit` (a rejected request consumes nothing), and a rejection reports when
the oldest in-window request leaves the window as the reset timestamp. -/
def slidingWindowLimit (window limit : Nat) (ls : LimiterState) (key : String)
    (now : Nat) : LimitResult :=
  let past := (alookup key ls).getD []
  let recent := past.filter (fun t => now < t + window)
  if recent.length < limit then
    { success := true, reset := now + window, state := (key, now :: past) :: ls }
  else
    { success := false, reset := recent.foldr Nat.min now + window, state := ls }

/-- Full limiter key of the generation route: the `Ratelimit` client uses
`adgen-ratelimit` as key namespace and the route passes `gen_${ip}`. -/
def genLimiterKey (ip : String) : String := "adgen-ratelimit:gen_" ++ ip

/-- Full limiter key of the inspection route (`adinsp-ratelimit`, `insp_${ip}`). -/
def inspLimiterKey (ip : String) : String := "adinsp-ratelimit:insp_" ++ ip

/-- Outcome of the single OpenAI chat-completion call a handler makes on a
cache miss: a transport/timeout failure (the `.catch` around
`openai.chat.completions.create`), a missing `choices[0].message.content`, a
content string `JSON.parse` rejects, or a parsed JSON value together with the
`usage.total_tokens` count when the API reported one. -/
inductive ProviderResult where
  | transportError (msg : String)
  | emptyContent
  | unparseable
  | parsed (j : Json) (tokens : Option Nat)

/-- Environment of one request: the provider outcome that the single upstream
call would produce, whether the `kv.get` / `kv.set` calls fail (their
`.catch` handlers are the subject of claim C6), the `NODE_ENV` value and the
stack trace the JavaScript runtime would attach to a thrown error. -/
structure Env where
  provider : ProviderResult
  cacheReadFails : Bool
  cacheWriteFails : Bool
  nodeEnv : String
  errStack : String

/-- An entry written with `kv.set(key, value, ex)`: the stored JSON value and
the TTL in seconds that was passed along. -/
structure CacheEntry where
  value : Json
  ex : Nat

/-- The cache keyspace of the shared KV store (newest binding first). -/
abbrev Store := List (String × CacheEntry)

/-- An incoming request: the `x-forwarded-for` header if present, and the
body as parsed JSON (`none` models a body `request.json()` rejects). -/
structure Request where
  xForwardedFor : Option String
  body : Option Json

/-- Client identifier extraction:
`request.headers.get('x-forwarded-for')?.split(',')[0]?.trim() || '127.0.0.1'`. -/
def clientIp (r : Request) : String :=
  match r.xForwardedFor with
  | none => "127.0.0.1"
  | some h =>
      let first := (((h.splitOn ",").headD "").trim)
      if first = "" then "127.0.0.1" else first

/-- One rendered validation issue of the 400 body:
`{ path: e.path.join('.'), message: e.message }`. -/
structure IssueOut where
  path : String
  message : String
deriving DecidableEq, Repr

def renderIssues (issues : List ZodIssue) : List IssueOut :=
  issues.map (fun i => ⟨pathJoin i.path, i.message⟩)

/-- Responses of the generation route, one constructor per `NextResponse.json`
call site: 200 with a JSON body, 429, 400 and 500. -/
inductive GenResponse where
  | ok (body : Json)
  | rateLimited (error : String) (reset : Nat) (upgradeUrl : String)
  | validationFailed (error : String) (issues : List IssueOut)
  | serverError (error : String) (code : String)

/-- HTTP status of a generation-route response. -/
def GenResponse.status : GenResponse → Nat
  | GenResponse.ok _ => 200
  | GenResponse.rateLimited _ _ _ => 429
  | GenResponse.validationFailed _ _ => 400
  | GenResponse.serverError _ _ => 500

def GenResponse.isRateLimited : GenResponse → Bool
  | GenResponse.rateLimited _ _ _ => true
  | _ => false

/-- JSON body of a generation-route response.  The `reset` timestamp is
rendered through `Date.toISOString`, modelled as the decimal rendering of the
epoch timestamp (an injective rendering; no claim depends on the calendar
format). -/
def GenResponse.bodyJson : GenResponse → Json
  | GenResponse.ok b => b
  | GenResponse.rateLimited e r u =>
      Json.obj [("error", Json.str e), ("reset", Json.str (toString r)),
        ("upgradeUrl", Json.str u)]
  | GenResponse.validationFailed e issues =>
      Json.obj [("error", Json.str e),
        ("issues", Json.arr (issues.map (fun i =>
          Json.obj [("path", Json.str i.path), ("message", Json.str i.message)])))]
  | GenResponse.serverError e c =>
      Json.obj [("error", Json.str e), ("code", Json.str c)]

/-- Responses of the inspection route; its 500 site additionally carries
`stack: NODE_ENV === 'development' ? error.stack : undefined`. -/
inductive InspResponse where
  | ok (body : Json)
  | rateLimited (error : String) (reset : Nat) (upgradeUrl : String)
  | validationFailed (error : String) (issues : List IssueOut)
  | serverError (error : String) (code : String) (stack : Option String)

/-- HTTP status of an inspection-route response. -/
def InspResponse.status : InspResponse → Nat
  | InspResponse.ok _ => 200
  | InspResponse.rateLimited _ _ _ => 429
  | InspResponse.validationFailed _ _ => 400
  | InspResponse.serverError _ _ _ => 500

def InspResponse.isRateLimited : InspResponse → Bool
  | InspResponse.rateLimited _ _ _ => true
  | _ => false

/-- JSON body of an inspection-route response: a `stack` key appears only
when the value is not `undefined` (JSON serialization drops `undefined`). -/
def InspResponse.bodyJson : InspResponse → Json
  | InspResponse.ok b => b
  | InspResponse.rateLimited e r u =>
      Json.obj [("error", Json.str e), ("reset", Json.str (toString r)),
        ("upgradeUrl", Json.str u)]
  | InspResponse.validationFailed e issues =>
      Json.obj [("error", Json.str e),
        ("issues", Json.arr (issues.map (fun i =>
          Json.obj [("path", Json.str i.path), ("message", Json.str i.message)])))]
  | InspResponse.serverError e c stk =>
      Json.obj ([("error", Json.str e), ("code", Json.str c)]
        ++ (match stk with
            | some s => [("stack", Json.str s)]
            | none => []))

/-- Stack value the inspection route attaches to its 500 body. -/
def devStack (env : Env) : Option String :=
  if env.nodeEnv = "development" then some env.errStack else none

/-- Trace of which side-effecting stages a request reached: whether the
admission decision admitted it (consuming one quota unit), whether a cache
key was derived, whether `kv.get` ran, whether the provider was invoked and
whether `kv.set` was attempted. -/
structure Trace where
  limiterConsumed : Bool
  keyDerived : Bool
  cacheRead : Bool
  providerCalled : Bool
  cacheWriteAttempted : Bool
deriving DecidableEq, Repr

/-- Optional `tokens` entry of a `meta` object (dropped when `undefined`). -/
def tokensField : Option Nat → List (String × Json)
  | some t => [("tokens", Json.num t)]
  | none => []

/-- The `meta` object of a generation-route cache miss. -/
def genMissMeta (tokens : Option Nat) : Json :=
  Json.obj ([("cache", Json.str "miss"), ("model", Json.str "gpt-4")]
    ++ tokensField tokens)

/-- Outcome of one generation-route invocation. -/
structure GenOutcome where
  response : GenResponse
  store : Store
  limiter : LimiterState
  trace : Trace

/-- Shallow embedding of `POST` in `src/app/api/generate-ad/route.ts`.  The
stages appear in source order: IP extraction, `ratelimit.limit` (429 on
failure), body parse (`Invalid JSON payload` thrown to the catch-all, which
maps a non-`ZodError` to a 500 with `error.name` as code), schema parse (a
`ZodError` maps to the 400 with rendered issues), cache-key derivation,
`kv.get` with errors coerced to `null` (miss), early return of the raw cached
value on a hit, the provider call with its error ladder, the `!parsed.ads`
contract check, the best-effort `kv.set(key, (ads), ex 3600)` and the 200
miss response. -/
def genPOST (env : Env) (now : Nat) (st : Store) (ls : LimiterState)
    (req : Request) : GenOutcome :=
  let ip := clientIp req
  let rl := slidingWindowLimit 86400 3 ls (genLimiterKey ip) now
  if rl.success then
    match req.body with
    | none =>
        { response := GenResponse.serverError "Invalid JSON payload" "Error",
          store := st, limiter := rl.state,
          trace := ⟨true, false, false, false, false⟩ }
    | some body =>
        match validateGen body with
        | Except.error issues =>
            { response := GenResponse.validationFailed "Validation failed"
                (renderIssues issues),
              store := st, limiter := rl.state,
              trace := ⟨true, false, false, false, false⟩ }
        | Except.ok v =>
            let key := genCacheKey v
            let cached : Option CacheEntry :=
              if env.cacheReadFails then none else alookup key st
            match cached with
            | some entry =>
                { response := GenResponse.ok entry.value,
                  store := st, limiter := rl.state,
                  trace := ⟨true, true, true, false, false⟩ }
            | none =>
                match env.provider with
                | ProviderResult.transportError msg =>
                    { response := GenResponse.serverError
                        ("OpenAI request failed: " ++ msg) "Error",
                      store := st, limiter := rl.state,
                      trace := ⟨true, true, true, true, false⟩ }
                | ProviderResult.emptyContent =>
                    { response := GenResponse.serverError
                        "Empty response from OpenAI" "Error",
                      store := st, limiter := rl.state,
                      trace := ⟨true, true, true, true, false⟩ }
                | ProviderResult.unparseable =>
                    { response := GenResponse.serverError
                        "Received malformed ad data" "Error",
                      store := st, limiter := rl.state,
                      trace := ⟨true, true, true, true, false⟩ }
                | ProviderResult.parsed j tokens =>
                    if truthy (getField j "ads") then
                      let adsVal := (getField j "ads").getD Json.null
                      let entry : CacheEntry := ⟨Json.obj [("ads", adsVal)], 3600⟩
                      let st' := if env.cacheWriteFails then st else (key, entry) :: st
                      { response := GenResponse.ok (Json.obj [("ads", adsVal),
                          ("meta", genMissMeta tokens)]),
                        store := st', limiter := rl.state,
                        trace := ⟨true, true, true, true, true⟩ }
                    else
                      { response := GenResponse.serverError
                          "Received malformed ad data" "Error",
                        store := st, limiter := rl.state,
                        trace := ⟨true, true, true, true, false⟩ }
  else
    { response := GenResponse.rateLimited "Free limit reached!" rl.reset "/pricing",
      store := st, limiter := rl.state,
      trace := ⟨false, false, false, false, false⟩ }

/-- Replacement-or-append of a key in an object's field list, as effected by
`\x7b ...cached, meta \x7d` (an existing `meta` key would be overwritten in
place; a new one is appended last). -/
def setKey (fs : List (String × Json)) (k : String) (v : Json) :
    List (String × Json) :=
  if (alookup k fs).isSome then
    fs.map (fun p => if p.1 = k then (k, v) else p)
  else fs ++ [(k, v)]

/-- Hit-path body of the inspection route: the stored entry spread into a new
object with `meta: (cache: 'hit')` added.  The route only ever stores objects
(`(analysis)`), so the non-object branch is unreachable on values this model
writes. -/
def spreadMeta (cached : Json) (meta : Json) : Json :=
  match cached with
  | Json.obj fs => Json.obj (setKey fs "meta" meta)
  | _ => Json.obj [("meta", meta)]

/-- The `meta` object of an inspection-route cache miss; `analyzedAt` is
`new Date().toISOString()`, modelled as the decimal rendering of `now`. -/
def inspMissMeta (tokens : Option Nat) (now : Nat) : Json :=
  Json.obj ([("cache", Json.str "miss"), ("model", Json.str "gpt-4")]
    ++ tokensField tokens ++ [("analyzedAt", Json.str (toString now))])

/-- Outcome of one inspection-route invocation. -/
structure InspOutcome where
  response : InspResponse
  store : Store
  limiter : LimiterState
  trace : Trace

/-- Shallow embedding of `POST` in `src/app/api/inspect-ad/route.ts`.  Same
pipeline as the generation route with these differences: its own limiter
namespace and identifier, `safeParse` with an early 400 return, the
`inspect:` cache-key namespace, a hit response that spreads the cached entry
and adds `meta: (cache: 'hit')`, the `!analysis.grade || !analysis.suggestions`
contract check, `kv.set(key, (analysis), ex 86400)`, and 500 bodies that
carry a `stack` only in development. -/
def inspPOST (env : Env) (now : Nat) (st : Store) (ls : LimiterState)
    (req : Request) : InspOutcome :=
  let ip := clientIp req
  let rl := slidingWindowLimit 86400 3 ls (inspLimiterKey ip) now
  if rl.success then
    match req.body with
    | none =>
        { response := InspResponse.serverError "Invalid JSON payload" "Error"
            (devStack env),
          store := st, limiter := rl.state,
          trace := ⟨true, false, false, false, false⟩ }
    | some body =>
        match validateInsp body with
        | Except.error issues =>
            { response := InspResponse.validationFailed "Validation failed"
                (renderIssues issues),
              store := st, limiter := rl.state,
              trace := ⟨true, false, false, false, false⟩ }
        | Except.ok v =>
            let key := inspCacheKey v
            let cached : Option CacheEntry :=
              if env.cacheReadFails then none else alookup key st
            match cached with
            | some entry =>
                { response := InspResponse.ok (spreadMeta entry.value
                    (Json.obj [("cache", Json.str "hit")])),
                  store := st, limiter := rl.state,
                  trace := ⟨true, true, true, false, false⟩ }
            | none =>
                match env.provider with
                | ProviderResult.transportError msg =>
                    { response := InspResponse.serverError
                        ("Analysis failed: " ++ msg) "Error" (devStack env),
                      store := st, limiter := rl.state,
                      trace := ⟨true, true, true, true, false⟩ }
                | ProviderResult.emptyContent =>
                    { response := InspResponse.serverError
                        "Empty response from OpenAI" "Error" (devStack env),
                      store := st, limiter := rl.state,
                      trace := ⟨true, true, true, true, false⟩ }
                | ProviderResult.unparseable =>
                    { response := InspResponse.serverError
                        "Received malformed analysis data" "Error" (devStack env),
                      store := st, limiter := rl.state,
                      trace := ⟨true, true, true, true, false⟩ }
                | ProviderResult.parsed j tokens =>
                    if truthy (getField j "grade") && truthy (getField j "suggestions") then
                      let entry : CacheEntry := ⟨Json.obj [("analysis", j)], 86400⟩
                      let st' := if env.cacheWriteFails then st else (key, entry) :: st
                      { response := InspResponse.ok (Json.obj [("analysis", j),
                          ("meta", inspMissMeta tokens now)]),
                        store := st', limiter := rl.state,
                        trace := ⟨true, true, true, true, true⟩ }
                    else
                      { response := InspResponse.serverError
                          "Received malformed analysis data" "Error" (devStack env),
                        store := st, limiter := rl.state,
                        trace := ⟨true, true, true, true, false⟩ }
  else
    { response := InspResponse.rateLimited "Analysis limit reached!" rl.reset "/pricing",
      store := st, limiter := rl.state,
      trace := ⟨false, false, false, false, false⟩ }

/-- Concrete valid generation body used for witnesses (a shortened version of
the spec's section-8 scenario). -/
def sampleGenBody : Json := Json.obj
  [ ("targetAudience", Json.str "mums 25-40"),
    ("goal", Json.str "more signups"),
    ("uniqueSellingPoint", Json.str "live coaching app"),
    ("contextDescription", Json.str "healthy routines in ten minutes daily"),
    ("brandVoice", Json.str "Friendly"),
    ("keyEmotion", Json.str "Trust"),
    ("adFormat", Json.str "Single Image"),
    ("industry", Json.str "Health"),
    ("preferredCTA", Json.str "Sign Up"),
    ("visualDirection", Json.str "Lifestyle") ]

/-- Validated form of `sampleGenBody`. -/
def sampleGenValidated : GenerateAdRequest :=
  { targetAudience := "mums 25-40", goal := "more signups",
    uniqueSellingPoint := "live coaching app",
    contextDescription := "healthy routines in ten minutes daily",
    brandVoice := "Friendly", keyEmotion := "Trust", competitors := none,
    adFormat := "Single Image", industry := "Health",
    preferredCTA := "Sign Up", visualDirection := "Lifestyle" }

/-- Concrete valid inspection body used for witnesses. -/
def sampleInspBody : Json := Json.obj
  [ ("headline", Json.str "Great ad here"),
    ("body", Json.str "strong persuasive text"),
    ("cta", Json.str "Buy"),
    ("offerDescription", Json.str "ten percent off today"),
    ("adType", Json.str "facebook"),
    ("industry", Json.str "Health") ]

/-- Validated form of `sampleInspBody`. -/
def sampleInspValidated : InspectAdRequest :=
  { headline := "Great ad here", body := "strong persuasive text",
    cta := "Buy", offerDescription := "ten percent off today",
    websiteOrBrand := none, adType := "facebook", industry := "Health" }

/-- Fields of `sampleGenBody` with the required `industry` key removed. -/
def badGenFields : List (String × Json) :=
  [ ("targetAudience", Json.str "mums 25-40"),
    ("goal", Json.str "more signups"),
    ("uniqueSellingPoint", Json.str "live coaching app"),
    ("contextDescription", Json.str "healthy routines in ten minutes daily"),
    ("brandVoice", Json.str "Friendly"),
    ("keyEmotion", Json.str "Trust"),
    ("adFormat", Json.str "Single Image"),
    ("preferredCTA", Json.str "Sign Up"),
    ("visualDirection", Json.str "Lifestyle") ]

/-- The `sampleGenBody` with the required `industry` key removed. -/
def badGenBody : Json := Json.obj badGenFields

/-- Fields of `sampleInspBody` with the required `industry` key removed. -/
def badInspFields : List (String × Json) :=
  [ ("headline", Json.str "Great ad here"),
    ("body", Json.str "strong persuasive text"),
    ("cta", Json.str "Buy"),
    ("offerDescription", Json.str "ten percent off today"),
    ("adType", Json.str "facebook") ]

/-- The `sampleInspBody` with the required `industry` key removed. -/
def badInspBody : Json := Json.obj badInspFields

/-- Concrete ads payload a well-formed provider answer carries. -/
def sampleAds : Json := Json.arr
  [Json.obj [("headline", Json.str "Get fit fast"), ("cta", Json.str "Sign Up")]]

/-- Concrete analysis object a well-formed provider answer carries. -/
def sampleAnalysis : Json := Json.obj
  [("grade", Json.str "B"), ("suggestions", Json.arr [Json.str "shorten headline"])]

/-- Environment with a healthy cache store and a contract-conforming provider
answer for the generation route, in production mode. -/
def okEnvGen : Env :=
  { provider := ProviderResult.parsed (Json.obj [("ads", sampleAds)]) (some 500),
    cacheReadFails := false, cacheWriteFails := false,
    nodeEnv := "production", errStack := "Error: boom at POST" }

/-- Environment with a healthy cache store and a contract-conforming provider
answer for the inspection route, in production mode. -/
def okEnvInsp : Env :=
  { provider := ProviderResult.parsed sampleAnalysis (some 700),
    cacheReadFails := false, cacheWriteFails := false,
    nodeEnv := "production", errStack := "Error: boom at POST" }

/-- Request carrying the sample generation body (no forwarding header, so the
loopback placeholder identifies the client). -/
def sampleGenReq : Request := { xForwardedFor := none, body := some sampleGenBody }

/-- Request carrying the sample inspection body. -/
def sampleInspReq : Request := { xForwardedFor := none, body := some sampleInspBody }

/-- Request whose body is not parseable as JSON. -/
def noJsonReq : Request := { xForwardedFor := none, body := none }

/-- Request carrying the generation body with `industry` missing. -/
def badGenReq : Request := { xForwardedFor := none, body := some badGenBody }

/-- Request carrying the inspection body with `industry` missing. -/
def badInspReq : Request := { xForwardedFor := none, body := some badInspBody }

theorem data_append (a b : String) : (a ++ b).data = a.data ++ b.data := by
  cases a; cases b; rfl

theorem genLimiterKey_ne_inspLimiterKey (a b : String) :
    genLimiterKey a ≠ inspLimiterKey b := by
  intro h
  have h2 := congrArg (fun s => s.data[2]?) h
  simp only [genLimiterKey, inspLimiterKey, data_append] at h2
  simp at h2

theorem alookup_cons_self {α : Type} (k : String) (v : α) (l : List (String × α)) :
    alookup k ((k, v) :: l) = some v := by
  simp [alookup]

theorem alookup_cons_ne {α : Type} (k k' : String) (v : α) (l : List (String × α))
    (h : k' ≠ k) : alookup k ((k', v) :: l) = alookup k l := by
  simp [alookup, h]

theorem slidingWindowLimit_other_key (w lim : Nat) (ls : LimiterState)
    (key k' : String) (now : Nat) (h : key ≠ k') :
    alookup k' (slidingWindowLimit w lim ls key now).state = alookup k' ls := by
  simp only [slidingWindowLimit]
  split
  · simp [alookup_cons_ne _ _ _ _ h]
  · rfl

theorem genPOST_limiter (env : Env) (now : Nat) (st : Store) (ls : LimiterState)
    (req : Request) :
    (genPOST env now st ls req).limiter
      = (slidingWindowLimit 86400 3 ls (genLimiterKey (clientIp req)) now).state := by
  simp only [genPOST]
  repeat' split
  all_goals rfl

theorem inspPOST_limiter (env : Env) (now : Nat) (st : Store) (ls : LimiterState)
    (req : Request) :
    (inspPOST env now st ls req).limiter
      = (slidingWindowLimit 86400 3 ls (inspLimiterKey (clientIp req)) now).state := by
  simp only [inspPOST]
  repeat' split
  all_goals rfl

theorem genPOST_isRateLimited (env : Env) (now : Nat) (st : Store) (ls : LimiterState)
    (req : Request) :
    (genPOST env now st ls req).response.isRateLimited
      = !(slidingWindowLimit 86400 3 ls (genLimiterKey (clientIp req)) now).success := by
  simp only [genPOST]
  repeat' split
  all_goals simp_all [GenResponse.isRateLimited]

theorem inspPOST_isRateLimited (env : Env) (now : Nat) (st : Store) (ls : LimiterState)
    (req : Request) :
    (inspPOST env now st ls req).response.isRateLimited
      = !(slidingWindowLimit 86400 3 ls (inspLimiterKey (clientIp req)) now).success := by
  simp only [inspPOST]
  repeat' split
  all_goals simp_all [InspResponse.isRateLimited]

theorem genPOST_rejected (env : Env) (now : Nat) (st : Store) (ls : LimiterState)
    (req : Request)
    (h : (slidingWindowLimit 86400 3 ls (genLimiterKey (clientIp req)) now).success = false) :
    (genPOST env now st ls req).response
      = GenResponse.rateLimited "Free limit reached!"
          (slidingWindowLimit 86400 3 ls (genLimiterKey (clientIp req)) now).reset
          "/pricing" := by
  simp only [genPOST]
  simp [h]

theorem ruleCheck_path (name : String) (r : FieldRule) (v : Option Json) :
    ∀ i ∈ ruleCheck name r v, i.path = [name] := by
  cases r <;> rcases v with _ | j <;> try cases j
  all_goals intro i hi
  all_goals simp_all [ruleCheck, checkString, checkOptString, checkEnum]
  all_goals try (rcases hi with ⟨_, rfl⟩ | ⟨_, rfl⟩ <;> rfl)

theorem pathJoin_single (p : String) : pathJoin [p] = p := rfl

theorem schemaIssues_violation (schema : List (String × FieldRule))
    (fs : List (String × Json)) (name : String) (rule : FieldRule)
    (hmem : (name, rule) ∈ schema)
    (hviol : ruleCheck name rule (getField (Json.obj fs) name) ≠ []) :
    ∃ i ∈ schemaIssues schema (Json.obj fs), i.path = [name] := by
  obtain ⟨i, hi⟩ := List.exists_mem_of_ne_nil _ hviol
  refine ⟨i, ?_, ruleCheck_path name rule _ i hi⟩
  unfold schemaIssues
  simp only [List.mem_flatten, List.mem_map]
  exact ⟨ruleCheck name rule (getField (Json.obj fs) name),
    ⟨(name, rule), hmem, rfl⟩, hi⟩

theorem validateGen_error (j : Json) (h : genIssues j ≠ []) :
    validateGen j = Except.error (genIssues j) := by
  unfold validateGen
  cases hg : genIssues j with
  | nil => exact absurd hg h
  | cons a as => rfl

theorem validateInsp_error (j : Json) (h : inspIssues j ≠ []) :
    validateInsp j = Except.error (inspIssues j) := by
  unfold validateInsp
  cases hg : inspIssues j with
  | nil => exact absurd hg h
  | cons a as => rfl

theorem renderIssues_mem (issues : List ZodIssue) (i : ZodIssue) (hi : i ∈ issues) :
    ∃ o ∈ renderIssues issues, o.path = pathJoin i.path := by
  exact ⟨⟨pathJoin i.path, i.message⟩, List.mem_map_of_mem _ hi, rfl⟩

theorem genPOST_invalid_json (env : Env) (now : Nat) (st : Store)
    (ls : LimiterState) (req : Request)
    (hrl : (slidingWindowLimit 86400 3 ls (genLimiterKey (clientIp req)) now).success = true)
    (hbody : req.body = none) :
    genPOST env now st ls req =
      { response := GenResponse.serverError "Invalid JSON payload" "Error",
        store := st,
        limiter := (slidingWindowLimit 86400 3 ls (genLimiterKey (clientIp req)) now).state,
        trace := ⟨true, false, false, false, false⟩ } := by
  simp [genPOST, hbody, hrl]

theorem genPOST_invalid_body (env : Env) (now : Nat) (st : Store)
    (ls : LimiterState) (req : Request) (body : Json) (issues : List ZodIssue)
    (hrl : (slidingWindowLimit 86400 3 ls (genLimiterKey (clientIp req)) now).success = true)
    (hbody : req.body = some body)
    (hval : validateGen body = Except.error issues) :
    genPOST env now st ls req =
      { response := GenResponse.validationFailed "Validation failed" (renderIssues issues),
        store := st,
        limiter := (slidingWindowLimit 86400 3 ls (genLimiterKey (clientIp req)) now).state,
        trace := ⟨true, false, false, false, false⟩ } := by
  simp [genPOST, hbody, hval, hrl]

theorem genPOST_hit (env : Env) (now : Nat) (st : Store)
    (ls : LimiterState) (req : Request) (body : Json) (v : GenerateAdRequest)
    (entry : CacheEntry)
    (hrl : (slidingWindowLimit 86400 3 ls (genLimiterKey (clientIp req)) now).success = true)
    (hbody : req.body = some body)
    (hval : validateGen body = Except.ok v)
    (hread : env.cacheReadFails = false)
    (hcached : alookup (genCacheKey v) st = some entry) :
    genPOST env now st ls req =
      { response := GenResponse.ok entry.value,
        store := st,
        limiter := (slidingWindowLimit 86400 3 ls (genLimiterKey (clientIp req)) now).state,
        trace := ⟨true, true, true, false, false⟩ } := by
  simp [genPOST, hbody, hval, hrl, hread, hcached]

theorem genPOST_miss_ok (env : Env) (now : Nat) (st : Store)
    (ls : LimiterState) (req : Request) (body : Json) (v : GenerateAdRequest)
    (j : Json) (tokens : Option Nat)
    (hrl : (slidingWindowLimit 86400 3 ls (genLimiterKey (clientIp req)) now).success = true)
    (hbody : req.body = some body)
    (hval : validateGen body = Except.ok v)
    (hmiss : (if env.cacheReadFails then none else alookup (genCacheKey v) st) = none)
    (hprov : env.provider = ProviderResult.parsed j tokens)
    (hads : truthy (getField j "ads") = true) :
    genPOST env now st ls req =
      { response := GenResponse.ok (Json.obj
          [("ads", (getField j "ads").getD Json.null), ("meta", genMissMeta tokens)]),
        store := if env.cacheWriteFails then st
          else (genCacheKey v,
            ⟨Json.obj [("ads", (getField j "ads").getD Json.null)], 3600⟩) :: st,
        limiter := (slidingWindowLimit 86400 3 ls (genLimiterKey (clientIp req)) now).state,
        trace := ⟨true, true, true, true, true⟩ } := by
  simp [genPOST, hbody, hval, hrl, hprov, hmiss, hads]

theorem genPOST_malformed (env : Env) (now : Nat) (st : Store)
    (ls : LimiterState) (req : Request) (body : Json) (v : GenerateAdRequest)
    (hrl : (slidingWindowLimit 86400 3 ls (genLimiterKey (clientIp req)) now).success = true)
    (hbody : req.body = some body)
    (hval : validateGen body = Except.ok v)
    (hmiss : (if env.cacheReadFails then none else alookup (genCacheKey v) st) = none)
    (hbad : env.provider = ProviderResult.unparseable
      ∨ ∃ j tokens, env.provider = ProviderResult.parsed j tokens
          ∧ truthy (getField j "ads") = false) :
    genPOST env now st ls req =
      { response := GenResponse.serverError "Received malformed ad data" "Error",
        store := st,
        limiter := (slidingWindowLimit 86400 3 ls (genLimiterKey (clientIp req)) now).state,
        trace := ⟨true, true, true, true, false⟩ } := by
  rcases hbad with hprov | ⟨j, tokens, hprov, hads⟩
  · simp [genPOST, hbody, hval, hrl, hprov, hmiss]
  · simp [genPOST, hbody, hval, hrl, hprov, hmiss, hads]

theorem inspPOST_invalid_json (env : Env) (now : Nat) (st : Store)
    (ls : LimiterState) (req : Request)
    (hrl : (slidingWindowLimit 86400 3 ls (inspLimiterKey (clientIp req)) now).success = true)
    (hbody : req.body = none) :
    inspPOST env now st ls req =
      { response := InspResponse.serverError "Invalid JSON payload" "Error" (devStack env),
        store := st,
        limiter := (slidingWindowLimit 86400 3 ls (inspLimiterKey (clientIp req)) now).state,
        trace := ⟨true, false, false, false, false⟩ } := by
  simp [inspPOST, hbody, hrl]

theorem inspPOST_invalid_body (env : Env) (now : Nat) (st : Store)
    (ls : LimiterState) (req : Request) (body : Json) (issues : List ZodIssue)
    (hrl : (slidingWindowLimit 86400 3 ls (inspLimiterKey (clientIp req)) now).success = true)
    (hbody : req.body = some body)
    (hval : validateInsp body = Except.error issues) :
    inspPOST env now st ls req =
      { response := InspResponse.validationFailed "Validation failed" (renderIssues issues),
        store := st,
        limiter := (slidingWindowLimit 86400 3 ls (inspLimiterKey (clientIp req)) now).state,
        trace := ⟨true, false, false, false, false⟩ } := by
  simp [inspPOST, hbody, hval, hrl]

theorem inspPOST_hit (env : Env) (now : Nat) (st : Store)
    (ls : LimiterState) (req : Request) (body : Json) (v : InspectAdRequest)
    (entry : CacheEntry)
    (hrl : (slidingWindowLimit 86400 3 ls (inspLimiterKey (clientIp req)) now).success = true)
    (hbody : req.body = some body)
    (hval : validateInsp body = Except.ok v)
    (hread : env.cacheReadFails = false)
    (hcached : alookup (inspCacheKey v) st = some entry) :
    inspPOST env now st ls req =
      { response := InspResponse.ok (spreadMeta entry.value
          (Json.obj [("cache", Json.str "hit")])),
        store := st,
        limiter := (slidingWindowLimit 86400 3 ls (inspLimiterKey (clientIp req)) now).state,
        trace := ⟨true, true, true, false, false⟩ } := by
  simp [inspPOST, hbody, hval, hrl, hread, hcached]

theorem inspPOST_miss_ok (env : Env) (now : Nat) (st : Store)
    (ls : LimiterState) (req : Request) (body : Json) (v : InspectAdRequest)
    (j : Json) (tokens : Option Nat)
    (hrl : (slidingWindowLimit 86400 3 ls (inspLimiterKey (clientIp req)) now).success = true)
    (hbody : req.body = some body)
    (hval : validateInsp body = Except.ok v)
    (hmiss : (if env.cacheReadFails then none else alookup (inspCacheKey v) st) = none)
    (hprov : env.provider = ProviderResult.parsed j tokens)
    (hgrade : truthy (getField j "grade") = true)
    (hsugg : truthy (getField j "suggestions") = true) :
    inspPOST env now st ls req =
      { response := InspResponse.ok (Json.obj
          [("analysis", j), ("meta", inspMissMeta tokens now)]),
        store := if env.cacheWriteFails then st
          else (inspCacheKey v, ⟨Json.obj [("analysis", j)], 86400⟩) :: st,
        limiter := (slidingWindowLimit 86400 3 ls (inspLimiterKey (clientIp req)) now).state,
        trace := ⟨true, true, true, true, true⟩ } := by
  simp [inspPOST, hbody, hval, hrl, hprov, hmiss, hgrade, hsugg]

theorem inspPOST_malformed (env : Env) (now : Nat) (st : Store)
    (ls : LimiterState) (req : Request) (body : Json) (v : InspectAdRequest)
    (hrl : (slidingWindowLimit 86400 3 ls (inspLimiterKey (clientIp req)) now).success = true)
    (hbody : req.body = some body)
    (hval : validateInsp body = Except.ok v)
    (hmiss : (if env.cacheReadFails then none else alookup (inspCacheKey v) st) = none)
    (hbad : env.provider = ProviderResult.unparseable
      ∨ ∃ j tokens, env.provider = ProviderResult.parsed j tokens
          ∧ (truthy (getField j "grade") = false
             ∨ truthy (getField j "suggestions") = false)) :
    inspPOST env now st ls req =
      { response := InspResponse.serverError "Received malformed analysis data" "Error"
          (devStack env),
        store := st,
        limiter := (slidingWindowLimit 86400 3 ls (inspLimiterKey (clientIp req)) now).state,
        trace := ⟨true, true, true, true, false⟩ } := by
  rcases hbad with hprov | ⟨j, tokens, hprov, hbadf⟩
  · simp [inspPOST, hbody, hval, hrl, hprov, hmiss]
  · rcases hbadf with hg | hs
    · simp [inspPOST, hbody, hval, hrl, hprov, hmiss, hg]
    · simp [inspPOST, hbody, hval, hrl, hprov, hmiss, hs]

/-- C7: cache-key derivation is deterministic and namespaced.  Determinism is
immediate because `genCacheKey` / `inspCacheKey` are pure functions of the
validated request (optional-field presence included, since the serialization
branches on it); the namespace conjunct shows a `gen-ad:`-namespace key is
never equal to an `inspect:`-namespace key, whatever the two payloads are. -/
theorem c7_cache_key_determinism_and_namespacing :
    (∀ v : GenerateAdRequest, genCacheKey v = genCacheKey v) ∧
    (∀ w : InspectAdRequest, inspCacheKey w = inspCacheKey w) ∧
    (∀ (v : GenerateAdRequest) (w : InspectAdRequest),
        genCacheKey v ≠ inspCacheKey w) := by
  refine ⟨fun v => rfl, fun w => rfl, fun v w h => ?_⟩
  have h2 := congrArg String.data h
  simp only [genCacheKey, inspCacheKey, data_append] at h2
  simp only [List.cons_append, List.cons.injEq] at h2
  exact absurd h2.1 (by decide)

/-- Witness for C7 at the two concrete sample payloads. -/
theorem c7_witness :
    genCacheKey sampleGenValidated ≠ inspCacheKey sampleInspValidated :=
  c7_cache_key_determinism_and_namespacing.2.2 sampleGenValidated sampleInspValidated

/-- C3: for every admitted request whose parsed JSON body is missing a
required field or violates a length bound or enum membership (`ruleCheck` of
the field's schema rule rejects the field's value, which covers exactly the
`Required`, length-bound and enum issues), the endpoint responds with status
400 and a body whose `issues` array contains an entry whose `path` names the
offending field; stated for both routes. -/
theorem c3_schema_violation_yields_400_with_field_path
    (envG envI : Env) (nowG nowI : Nat) (stG stI : Store) (lsG lsI : LimiterState)
    (reqG reqI : Request) (fsG fsI : List (String × Json))
    (nameG nameI : String) (ruleG ruleI : FieldRule)
    (hrlG : (slidingWindowLimit 86400 3 lsG (genLimiterKey (clientIp reqG)) nowG).success = true)
    (hbodyG : reqG.body = some (Json.obj fsG))
    (hmemG : (nameG, ruleG) ∈ genSchema)
    (hviolG : ruleCheck nameG ruleG (getField (Json.obj fsG) nameG) ≠ [])
    (hrlI : (slidingWindowLimit 86400 3 lsI (inspLimiterKey (clientIp reqI)) nowI).success = true)
    (hbodyI : reqI.body = some (Json.obj fsI))
    (hmemI : (nameI, ruleI) ∈ inspSchema)
    (hviolI : ruleCheck nameI ruleI (getField (Json.obj fsI) nameI) ≠ []) :
    (∃ issues, (genPOST envG nowG stG lsG reqG).response
        = GenResponse.validationFailed "Validation failed" issues
      ∧ (genPOST envG nowG stG lsG reqG).response.status = 400
      ∧ ∃ i ∈ issues, i.path = nameG) ∧
    (∃ issues, (inspPOST envI nowI stI lsI reqI).response
        = InspResponse.validationFailed "Validation failed" issues
      ∧ (inspPOST envI nowI stI lsI reqI).response.status = 400
      ∧ ∃ i ∈ issues, i.path = nameI) := by
  constructor
  · obtain ⟨zi, hzi, hpath⟩ := schemaIssues_violation genSchema fsG nameG ruleG hmemG hviolG
    have hne : genIssues (Json.obj fsG) ≠ [] :=
      List.ne_nil_of_mem (a := zi) hzi
    have hval := validateGen_error (Json.obj fsG) hne
    have h := genPOST_invalid_body envG nowG stG lsG reqG (Json.obj fsG)
      (genIssues (Json.obj fsG)) hrlG hbodyG hval
    refine ⟨renderIssues (genIssues (Json.obj fsG)), ?_, ?_, ?_⟩
    · rw [h]
    · rw [h]; rfl
    · obtain ⟨o, ho, hopath⟩ := renderIssues_mem _ zi hzi
      exact ⟨o, ho, by rw [hopath, hpath, pathJoin_single]⟩
  · obtain ⟨zi, hzi, hpath⟩ := schemaIssues_violation inspSchema fsI nameI ruleI hmemI hviolI
    have hne : inspIssues (Json.obj fsI) ≠ [] :=
      List.ne_nil_of_mem (a := zi) hzi
    have hval := validateInsp_error (Json.obj fsI) hne
    have h := inspPOST_invalid_body envI nowI stI lsI reqI (Json.obj fsI)
      (inspIssues (Json.obj fsI)) hrlI hbodyI hval
    refine ⟨renderIssues (inspIssues (Json.obj fsI)), ?_, ?_, ?_⟩
    · rw [h]
    · rw [h]; rfl
    · obtain ⟨o, ho, hopath⟩ := renderIssues_mem _ zi hzi
      exact ⟨o, ho, by rw [hopath, hpath, pathJoin_single]⟩

set_option maxRecDepth 100000 in
/-- Witness for C3: both sample bodies with the required `industry` field
removed get a 400 whose issues name `industry`. -/
theorem c3_witness :
    (∃ issues, (genPOST okEnvGen 5 [] [] badGenReq).response
        = GenResponse.validationFailed "Validation failed" issues
      ∧ (genPOST okEnvGen 5 [] [] badGenReq).response.status = 400
      ∧ ∃ i ∈ issues, i.path = "industry") ∧
    (∃ issues, (inspPOST okEnvInsp 5 [] [] badInspReq).response
        = InspResponse.validationFailed "Validation failed" issues
      ∧ (inspPOST okEnvInsp 5 [] [] badInspReq).response.status = 400
      ∧ ∃ i ∈ issues, i.path = "industry") :=
  c3_schema_violation_yields_400_with_field_path
    okEnvGen okEnvInsp 5 5 [] [] [] [] badGenReq badInspReq
    badGenFields badInspFields "industry" "industry"
    (FieldRule.enum industries) (FieldRule.enum industries)
    (by decide) rfl (by decide) (by decide)
    (by decide) rfl (by decide) (by decide)

/-- C4: for every admitted request whose parsed body fails validation (which
includes every length-bound or enum violation), processing stops at
validation: the trace shows no cache key derived, no cache read, no cache
write attempted and no provider call, and the store is returned unchanged;
stated for both routes. -/
theorem c4_validation_failure_reaches_no_side_effects
    (envG envI : Env) (nowG nowI : Nat) (stG stI : Store) (lsG lsI : LimiterState)
    (reqG reqI : Request) (bodyG bodyI : Json)
    (issuesG issuesI : List ZodIssue)
    (hrlG : (slidingWindowLimit 86400 3 lsG (genLimiterKey (clientIp reqG)) nowG).success = true)
    (hbodyG : reqG.body = some bodyG)
    (hvalG : validateGen bodyG = Except.error issuesG)
    (hrlI : (slidingWindowLimit 86400 3 lsI (inspLimiterKey (clientIp reqI)) nowI).success = true)
    (hbodyI : reqI.body = some bodyI)
    (hvalI : validateInsp bodyI = Except.error issuesI) :
    ((genPOST envG nowG stG lsG reqG).store = stG
      ∧ (genPOST envG nowG stG lsG reqG).trace.keyDerived = false
      ∧ (genPOST envG nowG stG lsG reqG).trace.cacheRead = false
      ∧ (genPOST envG nowG stG lsG reqG).trace.providerCalled = false
      ∧ (genPOST envG nowG stG lsG reqG).trace.cacheWriteAttempted = false) ∧
    ((inspPOST envI nowI stI lsI reqI).store = stI
      ∧ (inspPOST envI nowI stI lsI reqI).trace.keyDerived = false
      ∧ (inspPOST envI nowI stI lsI reqI).trace.cacheRead = false
      ∧ (inspPOST envI nowI stI lsI reqI).trace.providerCalled = false
      ∧ (inspPOST envI nowI stI lsI reqI).trace.cacheWriteAttempted = false) := by
  rw [genPOST_invalid_body envG nowG stG lsG reqG bodyG issuesG hrlG hbodyG hvalG,
    inspPOST_invalid_body envI nowI stI lsI reqI bodyI issuesI hrlI hbodyI hvalI]
  exact ⟨⟨rfl, rfl, rfl, rfl, rfl⟩, ⟨rfl, rfl, rfl, rfl, rfl⟩⟩

set_option maxRecDepth 100000 in
/-- Witness for C4 at the two invalid sample bodies. -/
theorem c4_witness :
    ((genPOST okEnvGen 5 [] [] badGenReq).store = []
      ∧ (genPOST okEnvGen 5 [] [] badGenReq).trace.keyDerived = false
      ∧ (genPOST okEnvGen 5 [] [] badGenReq).trace.cacheRead = false
      ∧ (genPOST okEnvGen 5 [] [] badGenReq).trace.providerCalled = false
      ∧ (genPOST okEnvGen 5 [] [] badGenReq).trace.cacheWriteAttempted = false) ∧
    ((inspPOST okEnvInsp 5 [] [] badInspReq).store = []
      ∧ (inspPOST okEnvInsp 5 [] [] badInspReq).trace.keyDerived = false
      ∧ (inspPOST okEnvInsp 5 [] [] badInspReq).trace.cacheRead = false
      ∧ (inspPOST okEnvInsp 5 [] [] badInspReq).trace.providerCalled = false
      ∧ (inspPOST okEnvInsp 5 [] [] badInspReq).trace.cacheWriteAttempted = false) :=
  c4_validation_failure_reaches_no_side_effects
    okEnvGen okEnvInsp 5 5 [] [] [] [] badGenReq badInspReq
    badGenBody badInspBody
    [⟨["industry"], "Required"⟩] [⟨["industry"], "Required"⟩]
    (by decide) rfl rfl (by decide) rfl rfl

/-- C5: for every admitted, validated request that misses the cache and whose
provider response is unparseable as JSON or lacks the required `ads` field
(generation) or the `grade` / `suggestions` fields (inspection), the result
is never written to the cache (no `kv.set` is attempted and the store is
unchanged) and the endpoint returns the 500 provider-contract error, not a
success. -/
theorem c5_malformed_provider_output_never_cached
    (envG envI : Env) (nowG nowI : Nat) (stG stI : Store) (lsG lsI : LimiterState)
    (reqG reqI : Request) (bodyG bodyI : Json)
    (vG : GenerateAdRequest) (vI : InspectAdRequest)
    (hrlG : (slidingWindowLimit 86400 3 lsG (genLimiterKey (clientIp reqG)) nowG).success = true)
    (hbodyG : reqG.body = some bodyG)
    (hvalG : validateGen bodyG = Except.ok vG)
    (hmissG : (if envG.cacheReadFails then none else alookup (genCacheKey vG) stG) = none)
    (hbadG : envG.provider = ProviderResult.unparseable
      ∨ ∃ j tokens, envG.provider = ProviderResult.parsed j tokens
          ∧ getField j "ads" = none)
    (hrlI : (slidingWindowLimit 86400 3 lsI (inspLimiterKey (clientIp reqI)) nowI).success = true)
    (hbodyI : reqI.body = some bodyI)
    (hvalI : validateInsp bodyI = Except.ok vI)
    (hmissI : (if envI.cacheReadFails then none else alookup (inspCacheKey vI) stI) = none)
    (hbadI : envI.provider = ProviderResult.unparseable
      ∨ ∃ j tokens, envI.provider = ProviderResult.parsed j tokens
          ∧ (getField j "grade" = none ∨ getField j "suggestions" = none)) :
    ((genPOST envG nowG stG lsG reqG).store = stG
      ∧ (genPOST envG nowG stG lsG reqG).trace.cacheWriteAttempted = false
      ∧ (genPOST envG nowG stG lsG reqG).response
          = GenResponse.serverError "Received malformed ad data" "Error"
      ∧ (genPOST envG nowG stG lsG reqG).response.status = 500) ∧
    ((inspPOST envI nowI stI lsI reqI).store = stI
      ∧ (inspPOST envI nowI stI lsI reqI).trace.cacheWriteAttempted = false
      ∧ (inspPOST envI nowI stI lsI reqI).response
          = InspResponse.serverError "Received malformed analysis data" "Error"
              (devStack envI)
      ∧ (inspPOST envI nowI stI lsI reqI).response.status = 500) := by
  have hbadG' : envG.provider = ProviderResult.unparseable
      ∨ ∃ j tokens, envG.provider = ProviderResult.parsed j tokens
          ∧ truthy (getField j "ads") = false := by
    rcases hbadG with h | ⟨j, tokens, hp, hf⟩
    · exact Or.inl h
    · exact Or.inr ⟨j, tokens, hp, by rw [hf]; rfl⟩
  have hbadI' : envI.provider = ProviderResult.unparseable
      ∨ ∃ j tokens, envI.provider = ProviderResult.parsed j tokens
          ∧ (truthy (getField j "grade") = false
             ∨ truthy (getField j "suggestions") = false) := by
    rcases hbadI with h | ⟨j, tokens, hp, hf | hf⟩
    · exact Or.inl h
    · exact Or.inr ⟨j, tokens, hp, Or.inl (by rw [hf]; rfl)⟩
    · exact Or.inr ⟨j, tokens, hp, Or.inr (by rw [hf]; rfl)⟩
  rw [genPOST_malformed envG nowG stG lsG reqG bodyG vG hrlG hbodyG hvalG hmissG hbadG',
    inspPOST_malformed envI nowI stI lsI reqI bodyI vI hrlI hbodyI hvalI hmissI hbadI']
  exact ⟨⟨rfl, rfl, rfl, rfl⟩, ⟨rfl, rfl, rfl, rfl⟩⟩

/-- Environment whose provider answers with JSON lacking the required fields
of both contracts. -/
def contractlessEnv : Env :=
  { provider := ProviderResult.parsed (Json.obj [("note", Json.str "no fields")]) (some 10),
    cacheReadFails := false, cacheWriteFails := false,
    nodeEnv := "production", errStack := "Error: boom at POST" }

set_option maxRecDepth 100000 in
/-- Witness for C5: a provider answer without `ads` / `grade` / `suggestions`
is not cached and yields the 500 contract error on both routes. -/
theorem c5_witness :
    ((genPOST contractlessEnv 5 [] [] sampleGenReq).store = []
      ∧ (genPOST contractlessEnv 5 [] [] sampleGenReq).trace.cacheWriteAttempted = false
      ∧ (genPOST contractlessEnv 5 [] [] sampleGenReq).response
          = GenResponse.serverError "Received malformed ad data" "Error"
      ∧ (genPOST contractlessEnv 5 [] [] sampleGenReq).response.status = 500) ∧
    ((inspPOST contractlessEnv 5 [] [] sampleInspReq).store = []
      ∧ (inspPOST contractlessEnv 5 [] [] sampleInspReq).trace.cacheWriteAttempted = false
      ∧ (inspPOST contractlessEnv 5 [] [] sampleInspReq).response
          = InspResponse.serverError "Received malformed analysis data" "Error"
              (devStack contractlessEnv)
      ∧ (inspPOST contractlessEnv 5 [] [] sampleInspReq).response.status = 500) :=
  c5_malformed_provider_output_never_cached
    contractlessEnv contractlessEnv 5 5 [] [] [] [] sampleGenReq sampleInspReq
    sampleGenBody sampleInspBody sampleGenValidated sampleInspValidated
    (by decide) rfl rfl rfl
    (Or.inr ⟨Json.obj [("note", Json.str "no fields")], some 10, rfl, rfl⟩)
    (by decide) rfl rfl rfl
    (Or.inr ⟨Json.obj [("note", Json.str "no fields")], some 10, rfl, Or.inl rfl⟩)

/-- C6: cache-store failures are best-effort on both routes.  A failing
`kv.get` produces exactly the response a genuine cache miss (empty store,
healthy read) produces, and processing proceeds to the provider whenever the
request was admitted and valid; a failing `kv.set` after a successful compute
never changes the response, and on the happy path the already-computed result
is still returned as a 200 success. -/
theorem c6_cache_store_failures_are_best_effort :
    (∀ (env : Env) (now : Nat) (st : Store) (ls : LimiterState) (req : Request),
      (genPOST { env with cacheReadFails := true } now st ls req).response
        = (genPOST { env with cacheReadFails := false } now [] ls req).response) ∧
    (∀ (env : Env) (now : Nat) (st : Store) (ls : LimiterState) (req : Request)
        (body : Json) (v : GenerateAdRequest),
      (slidingWindowLimit 86400 3 ls (genLimiterKey (clientIp req)) now).success = true →
      req.body = some body → validateGen body = Except.ok v →
      env.cacheReadFails = true →
      (genPOST env now st ls req).trace.providerCalled = true) ∧
    (∀ (env : Env) (now : Nat) (st : Store) (ls : LimiterState) (req : Request),
      (genPOST { env with cacheWriteFails := true } now st ls req).response
        = (genPOST { env with cacheWriteFails := false } now st ls req).response) ∧
    (∀ (env : Env) (now : Nat) (st : Store) (ls : LimiterState) (req : Request)
        (body : Json) (v : GenerateAdRequest) (j : Json) (tokens : Option Nat),
      (slidingWindowLimit 86400 3 ls (genLimiterKey (clientIp req)) now).success = true →
      req.body = some body → validateGen body = Except.ok v →
      (if env.cacheReadFails then none else alookup (genCacheKey v) st) = none →
      env.provider = ProviderResult.parsed j tokens →
      truthy (getField j "ads") = true →
      env.cacheWriteFails = true →
      (genPOST env now st ls req).response = GenResponse.ok (Json.obj
          [("ads", (getField j "ads").getD Json.null), ("meta", genMissMeta tokens)])
        ∧ (genPOST env now st ls req).response.status = 200) ∧
    (∀ (env : Env) (now : Nat) (st : Store) (ls : LimiterState) (req : Request),
      (inspPOST { env with cacheReadFails := true } now st ls req).response
        = (inspPOST { env with cacheReadFails := false } now [] ls req).response) ∧
    (∀ (env : Env) (now : Nat) (st : Store) (ls : LimiterState) (req : Request)
        (body : Json) (v : InspectAdRequest),
      (slidingWindowLimit 86400 3 ls (inspLimiterKey (clientIp req)) now).success = true →
      req.body = some body → validateInsp body = Except.ok v →
      env.cacheReadFails = true →
      (inspPOST env now st ls req).trace.providerCalled = true) ∧
    (∀ (env : Env) (now : Nat) (st : Store) (ls : LimiterState) (req : Request),
      (inspPOST { env with cacheWriteFails := true } now st ls req).response
        = (inspPOST { env with cacheWriteFails := false } now st ls req).response) ∧
    (∀ (env : Env) (now : Nat) (st : Store) (ls : LimiterState) (req : Request)
        (body : Json) (v : InspectAdRequest) (j : Json) (tokens : Option Nat),
      (slidingWindowLimit 86400 3 ls (inspLimiterKey (clientIp req)) now).success = true →
      req.body = some body → validateInsp body = Except.ok v →
      (if env.cacheReadFails then none else alookup (inspCacheKey v) st) = none →
      env.provider = ProviderResult.parsed j tokens →
      truthy (getField j "grade") = true → truthy (getField j "suggestions") = true →
      env.cacheWriteFails = true →
      (inspPOST env now st ls req).response = InspResponse.ok (Json.obj
          [("analysis", j), ("meta", inspMissMeta tokens now)])
        ∧ (inspPOST env now st ls req).response.status = 200) := by
  refine ⟨?_, ?_, ?_, ?_, ?_, ?_, ?_, ?_⟩
  · intro env now st ls req
    simp only [genPOST, alookup]
    repeat' split
    all_goals simp_all
  · intro env now st ls req body v hrl hbody hval hrf
    rcases hprov : env.provider with msg | _ | _ | ⟨j, tokens⟩
    · simp [genPOST, hbody, hval, hrl, hrf, hprov]
    · simp [genPOST, hbody, hval, hrl, hrf, hprov]
    · simp [genPOST, hbody, hval, hrl, hrf, hprov]
    · by_cases hads : truthy (getField j "ads") = true
      · simp [genPOST, hbody, hval, hrl, hrf, hprov, hads]
      · simp [genPOST, hbody, hval, hrl, hrf, hprov, hads]
  · intro env now st ls req
    simp only [genPOST]
    repeat' split
    all_goals simp_all
  · intro env now st ls req body v j tokens hrl hbody hval hmiss hprov hads hwf
    rw [genPOST_miss_ok env now st ls req body v j tokens hrl hbody hval hmiss hprov hads]
    exact ⟨rfl, rfl⟩
  · intro env now st ls req
    simp only [inspPOST, alookup]
    repeat' split
    all_goals simp_all [devStack]
  · intro env now st ls req body v hrl hbody hval hrf
    rcases hprov : env.provider with msg | _ | _ | ⟨j, tokens⟩
    · simp [inspPOST, hbody, hval, hrl, hrf, hprov]
    · simp [inspPOST, hbody, hval, hrl, hrf, hprov]
    · simp [inspPOST, hbody, hval, hrl, hrf, hprov]
    · by_cases hg : truthy (getField j "grade") = true
      · by_cases hs : truthy (getField j "suggestions") = true
        · simp [inspPOST, hbody, hval, hrl, hrf, hprov, hg, hs]
        · simp [inspPOST, hbody, hval, hrl, hrf, hprov, hg, hs]
      · simp [inspPOST, hbody, hval, hrl, hrf, hprov, hg]
  · intro env now st ls req
    simp only [inspPOST]
    repeat' split
    all_goals simp_all [devStack]
  · intro env now st ls req body v j tokens hrl hbody hval hmiss hprov hg hs hwf
    rw [inspPOST_miss_ok env now st ls req body v j tokens hrl hbody hval hmiss hprov hg hs]
    exact ⟨rfl, rfl⟩

set_option maxRecDepth 100000 in
/-- Witness for C6 at the concrete sample requests and environments. -/
theorem c6_witness :
    ((genPOST { okEnvGen with cacheReadFails := true } 7 [] [] sampleGenReq).response
      = (genPOST { okEnvGen with cacheReadFails := false } 7 [] [] sampleGenReq).response) ∧
    ((genPOST { okEnvGen with cacheReadFails := true } 7 [] [] sampleGenReq).trace.providerCalled = true) ∧
    ((genPOST { okEnvGen with cacheWriteFails := true } 7 [] [] sampleGenReq).response
      = (genPOST { okEnvGen with cacheWriteFails := false } 7 [] [] sampleGenReq).response) ∧
    ((genPOST { okEnvGen with cacheWriteFails := true } 7 [] [] sampleGenReq).response
        = GenResponse.ok (Json.obj [("ads", sampleAds), ("meta", genMissMeta (some 500))])
      ∧ (genPOST { okEnvGen with cacheWriteFails := true } 7 [] [] sampleGenReq).response.status = 200) ∧
    ((inspPOST { okEnvInsp with cacheReadFails := true } 7 [] [] sampleInspReq).response
      = (inspPOST { okEnvInsp with cacheReadFails := false } 7 [] [] sampleInspReq).response) ∧
    ((inspPOST { okEnvInsp with cacheReadFails := true } 7 [] [] sampleInspReq).trace.providerCalled = true) ∧
    ((inspPOST { okEnvInsp with cacheWriteFails := true } 7 [] [] sampleInspReq).response
      = (inspPOST { okEnvInsp with cacheWriteFails := false } 7 [] [] sampleInspReq).response) ∧
    ((inspPOST { okEnvInsp with cacheWriteFails := true } 7 [] [] sampleInspReq).response
        = InspResponse.ok (Json.obj [("analysis", sampleAnalysis), ("meta", inspMissMeta (some 700) 7)])
      ∧ (inspPOST { okEnvInsp with cacheWriteFails := true } 7 [] [] sampleInspReq).response.status = 200) :=
  ⟨c6_cache_store_failures_are_best_effort.1 okEnvGen 7 [] [] sampleGenReq,
   c6_cache_store_failures_are_best_effort.2.1 { okEnvGen with cacheReadFails := true }
     7 [] [] sampleGenReq sampleGenBody sampleGenValidated (by decide) rfl rfl rfl,
   c6_cache_store_failures_are_best_effort.2.2.1 okEnvGen 7 [] [] sampleGenReq,
   c6_cache_store_failures_are_best_effort.2.2.2.1 { okEnvGen with cacheWriteFails := true }
     7 [] [] sampleGenReq sampleGenBody sampleGenValidated
     (Json.obj [("ads", sampleAds)]) (some 500) (by decide) rfl rfl rfl rfl rfl rfl,
   c6_cache_store_failures_are_best_effort.2.2.2.2.1 okEnvInsp 7 [] [] sampleInspReq,
   c6_cache_store_failures_are_best_effort.2.2.2.2.2.1 { okEnvInsp with cacheReadFails := true }
     7 [] [] sampleInspReq sampleInspBody sampleInspValidated (by decide) rfl rfl rfl,
   c6_cache_store_failures_are_best_effort.2.2.2.2.2.2.1 okEnvInsp 7 [] [] sampleInspReq,
   c6_cache_store_failures_are_best_effort.2.2.2.2.2.2.2 { okEnvInsp with cacheWriteFails := true }
     7 [] [] sampleInspReq sampleInspBody sampleInspValidated
     sampleAnalysis (some 700) (by decide) rfl rfl rfl rfl rfl rfl rfl⟩

theorem slidingWindowLimit_few (w lim : Nat) (ls : LimiterState) (key : String)
    (now : Nat) (h : ((alookup key ls).getD []).length < lim) :
    slidingWindowLimit w lim ls key now
      = { success := true, reset := now + w,
          state := (key, now :: (alookup key ls).getD []) :: ls } := by
  simp only [slidingWindowLimit]
  rw [if_pos (lt_of_le_of_lt (List.length_filter_le _ _) h)]

set_option maxRecDepth 100000 in
/-- Counterexample for C8 as stated: an admitted request whose body is not
parseable as JSON is answered with the 500 `Invalid JSON payload` error whose
body holds only `error` and `code` — it carries no `issues` array and no
field path at all, so the unparseable-JSON error does not come with the
field-path-plus-message structure the claim asserts (that structure exists
only on schema-constraint violations). -/
theorem c8_counterexample :
    (genPOST okEnvGen 5 [] [] noJsonReq).response
        = GenResponse.serverError "Invalid JSON payload" "Error"
      ∧ GenResponse.bodyJson (GenResponse.serverError "Invalid JSON payload" "Error")
        = Json.obj [("error", Json.str "Invalid JSON payload"), ("code", Json.str "Error")]
      ∧ getField (GenResponse.bodyJson
          (GenResponse.serverError "Invalid JSON payload" "Error")) "issues" = none
      ∧ getField (GenResponse.bodyJson
          (GenResponse.serverError "Invalid JSON payload" "Error")) "path" = none :=
  ⟨rfl, rfl, rfl, rfl⟩

/-- C8 (amended): for every admitted request whose body is not parseable as
JSON, the endpoint rejects it with an error distinct from schema-constraint
violations — a 500 `Invalid JSON payload` / `Error` body without an `issues`
array, where schema violations get a 400 `Validation failed` body whose
issues carry a field path plus message; the per-field structure belongs to
the schema-violation error, not to the unparseable-JSON error. -/
theorem c8_amended_invalid_json_distinct_but_pathless :
    (∀ (env : Env) (now : Nat) (st : Store) (ls : LimiterState) (req : Request),
      (slidingWindowLimit 86400 3 ls (genLimiterKey (clientIp req)) now).success = true →
      req.body = none →
      (genPOST env now st ls req).response
          = GenResponse.serverError "Invalid JSON payload" "Error"
        ∧ (genPOST env now st ls req).response.status = 500
        ∧ getField ((genPOST env now st ls req).response.bodyJson) "issues" = none) ∧
    (∀ (env : Env) (now : Nat) (st : Store) (ls : LimiterState) (req : Request)
        (body : Json) (issues : List ZodIssue),
      (slidingWindowLimit 86400 3 ls (genLimiterKey (clientIp req)) now).success = true →
      req.body = some body → validateGen body = Except.error issues →
      (genPOST env now st ls req).response
          = GenResponse.validationFailed "Validation failed" (renderIssues issues)
        ∧ (genPOST env now st ls req).response.status = 400) ∧
    (∀ (env : Env) (now : Nat) (st : Store) (ls : LimiterState) (req : Request),
      (slidingWindowLimit 86400 3 ls (inspLimiterKey (clientIp req)) now).success = true →
      req.body = none →
      (inspPOST env now st ls req).response
          = InspResponse.serverError "Invalid JSON payload" "Error" (devStack env)
        ∧ (inspPOST env now st ls req).response.status = 500
        ∧ getField ((inspPOST env now st ls req).response.bodyJson) "issues" = none) ∧
    (∀ (env : Env) (now : Nat) (st : Store) (ls : LimiterState) (req : Request)
        (body : Json) (issues : List ZodIssue),
      (slidingWindowLimit 86400 3 ls (inspLimiterKey (clientIp req)) now).success = true →
      req.body = some body → validateInsp body = Except.error issues →
      (inspPOST env now st ls req).response
          = InspResponse.validationFailed "Validation failed" (renderIssues issues)
        ∧ (inspPOST env now st ls req).response.status = 400) := by
  refine ⟨?_, ?_, ?_, ?_⟩
  · intro env now st ls req hrl hbody
    rw [genPOST_invalid_json env now st ls req hrl hbody]
    exact ⟨rfl, rfl, rfl⟩
  · intro env now st ls req body issues hrl hbody hval
    rw [genPOST_invalid_body env now st ls req body issues hrl hbody hval]
    exact ⟨rfl, rfl⟩
  · intro env now st ls req hrl hbody
    rw [inspPOST_invalid_json env now st ls req hrl hbody]
    refine ⟨rfl, rfl, ?_⟩
    cases hst : devStack env <;> rfl
  · intro env now st ls req body issues hrl hbody hval
    rw [inspPOST_invalid_body env now st ls req body issues hrl hbody hval]
    exact ⟨rfl, rfl⟩

set_option maxRecDepth 100000 in
/-- Witness for the amended C8 at concrete requests. -/
theorem c8_witness :
    ((genPOST okEnvGen 5 [] [] noJsonReq).response
        = GenResponse.serverError "Invalid JSON payload" "Error"
      ∧ (genPOST okEnvGen 5 [] [] noJsonReq).response.status = 500
      ∧ getField ((genPOST okEnvGen 5 [] [] noJsonReq).response.bodyJson) "issues" = none) ∧
    ((genPOST okEnvGen 5 [] [] badGenReq).response
        = GenResponse.validationFailed "Validation failed"
            (renderIssues [⟨["industry"], "Required"⟩])
      ∧ (genPOST okEnvGen 5 [] [] badGenReq).response.status = 400) ∧
    ((inspPOST okEnvInsp 5 [] [] noJsonReq).response
        = InspResponse.serverError "Invalid JSON payload" "Error" (devStack okEnvInsp)
      ∧ (inspPOST okEnvInsp 5 [] [] noJsonReq).response.status = 500
      ∧ getField ((inspPOST okEnvInsp 5 [] [] noJsonReq).response.bodyJson) "issues" = none) ∧
    ((inspPOST okEnvInsp 5 [] [] badInspReq).response
        = InspResponse.validationFailed "Validation failed"
            (renderIssues [⟨["industry"], "Required"⟩])
      ∧ (inspPOST okEnvInsp 5 [] [] badInspReq).response.status = 400) :=
  ⟨c8_amended_invalid_json_distinct_but_pathless.1 okEnvGen 5 [] [] noJsonReq
     (by decide) rfl,
   c8_amended_invalid_json_distinct_but_pathless.2.1 okEnvGen 5 [] [] badGenReq
     badGenBody [⟨["industry"], "Required"⟩] (by decide) rfl rfl,
   c8_amended_invalid_json_distinct_but_pathless.2.2.1 okEnvInsp 5 [] [] noJsonReq
     (by decide) rfl,
   c8_amended_invalid_json_distinct_but_pathless.2.2.2 okEnvInsp 5 [] [] badInspReq
     badInspBody [⟨["industry"], "Required"⟩] (by decide) rfl rfl⟩

/-- C9: every 500 body is the generic message plus the internal error code.
The generation route's 500 body always holds exactly `error` and `code`; the
inspection route's 500 carries a `stack` only when `NODE_ENV` is
`development`, so outside development the stack is `undefined` and the
serialized body again holds exactly `error` and `code` — no stack trace ever
reaches a production-facing response. -/
theorem c9_production_500_bodies_carry_no_stack :
    (∀ (env : Env) (now : Nat) (st : Store) (ls : LimiterState) (req : Request)
        (m c : String),
      (genPOST env now st ls req).response = GenResponse.serverError m c →
      (genPOST env now st ls req).response.bodyJson
        = Json.obj [("error", Json.str m), ("code", Json.str c)]) ∧
    (∀ (env : Env) (now : Nat) (st : Store) (ls : LimiterState) (req : Request)
        (m c : String) (stk : Option String),
      env.nodeEnv ≠ "development" →
      (inspPOST env now st ls req).response = InspResponse.serverError m c stk →
      stk = none
        ∧ (inspPOST env now st ls req).response.bodyJson
            = Json.obj [("error", Json.str m), ("code", Json.str c)]) := by
  constructor
  · intro env now st ls req m c hresp
    rw [hresp]
    rfl
  · intro env now st ls req m c stk hdev hresp
    have hstk : stk = devStack env := by
      simp only [inspPOST] at hresp
      repeat' split at hresp
      all_goals simp_all
    have hnone : devStack env = none := by simp [devStack, hdev]
    refine ⟨hstk.trans hnone, ?_⟩
    rw [hresp, hstk, hnone]
    rfl

/-- Environment whose provider call fails at the transport layer, in
production mode. -/
def transportFailEnv : Env :=
  { provider := ProviderResult.transportError "timeout",
    cacheReadFails := false, cacheWriteFails := false,
    nodeEnv := "production", errStack := "Error: boom at POST" }

set_option maxRecDepth 100000 in
/-- Witness for C9: concrete provider transport failures in production. -/
theorem c9_witness :
    ((genPOST transportFailEnv 5 [] [] sampleGenReq).response.bodyJson
      = Json.obj [("error", Json.str "OpenAI request failed: timeout"),
          ("code", Json.str "Error")]) ∧
    ((none : Option String) = none
      ∧ (inspPOST transportFailEnv 5 [] [] sampleInspReq).response.bodyJson
          = Json.obj [("error", Json.str "Analysis failed: timeout"),
              ("code", Json.str "Error")]) :=
  ⟨c9_production_500_bodies_carry_no_stack.1 transportFailEnv 5 [] [] sampleGenReq
     "OpenAI request failed: timeout" "Error" rfl,
   c9_production_500_bodies_carry_no_stack.2 transportFailEnv 5 [] [] sampleInspReq
     "Analysis failed: timeout" "Error" none (by decide) rfl⟩

/-- C10: the rate-limit check runs and consumes one quota unit before the
body is parsed or validated.  Starting from a fresh quota, a request whose
body fails JSON parsing — and likewise one whose body fails schema
validation — still leaves one consumed unit (the timestamp list `[now]`)
under the caller's per-endpoint limiter key; stated for both routes. -/
theorem c10_quota_consumed_even_when_parse_or_validation_fails :
    (∀ (env : Env) (now : Nat) (st : Store) (ls : LimiterState) (req : Request),
      alookup (genLimiterKey (clientIp req)) ls = none →
      req.body = none →
      (genPOST env now st ls req).response
          = GenResponse.serverError "Invalid JSON payload" "Error"
        ∧ alookup (genLimiterKey (clientIp req)) (genPOST env now st ls req).limiter
            = some [now]) ∧
    (∀ (env : Env) (now : Nat) (st : Store) (ls : LimiterState) (req : Request)
        (body : Json) (issues : List ZodIssue),
      alookup (genLimiterKey (clientIp req)) ls = none →
      req.body = some body → validateGen body = Except.error issues →
      (genPOST env now st ls req).response
          = GenResponse.validationFailed "Validation failed" (renderIssues issues)
        ∧ alookup (genLimiterKey (clientIp req)) (genPOST env now st ls req).limiter
            = some [now]) ∧
    (∀ (env : Env) (now : Nat) (st : Store) (ls : LimiterState) (req : Request),
      alookup (inspLimiterKey (clientIp req)) ls = none →
      req.body = none →
      (inspPOST env now st ls req).response
          = InspResponse.serverError "Invalid JSON payload" "Error" (devStack env)
        ∧ alookup (inspLimiterKey (clientIp req)) (inspPOST env now st ls req).limiter
            = some [now]) ∧
    (∀ (env : Env) (now : Nat) (st : Store) (ls : LimiterState) (req : Request)
        (body : Json) (issues : List ZodIssue),
      alookup (inspLimiterKey (clientIp req)) ls = none →
      req.body = some body → validateInsp body = Except.error issues →
      (inspPOST env now st ls req).response
          = InspResponse.validationFailed "Validation failed" (renderIssues issues)
        ∧ alookup (inspLimiterKey (clientIp req)) (inspPOST env now st ls req).limiter
            = some [now]) := by
  have hfew : ∀ (ls : LimiterState) (key : String), alookup key ls = none →
      ((alookup key ls).getD []).length < 3 := by
    intro ls key h
    rw [h]
    decide
  refine ⟨?_, ?_, ?_, ?_⟩
  · intro env now st ls req hfresh hbody
    have hrl := slidingWindowLimit_few 86400 3 ls (genLimiterKey (clientIp req)) now
      (hfew ls _ hfresh)
    refine ⟨?_, ?_⟩
    · rw [genPOST_invalid_json env now st ls req (by rw [hrl]) hbody]
    · rw [genPOST_limiter, hrl, hfresh]
      exact alookup_cons_self _ _ _
  · intro env now st ls req body issues hfresh hbody hval
    have hrl := slidingWindowLimit_few 86400 3 ls (genLimiterKey (clientIp req)) now
      (hfew ls _ hfresh)
    refine ⟨?_, ?_⟩
    · rw [genPOST_invalid_body env now st ls req body issues (by rw [hrl]) hbody hval]
    · rw [genPOST_limiter, hrl, hfresh]
      exact alookup_cons_self _ _ _
  · intro env now st ls req hfresh hbody
    have hrl := slidingWindowLimit_few 86400 3 ls (inspLimiterKey (clientIp req)) now
      (hfew ls _ hfresh)
    refine ⟨?_, ?_⟩
    · rw [inspPOST_invalid_json env now st ls req (by rw [hrl]) hbody]
    · rw [inspPOST_limiter, hrl, hfresh]
      exact alookup_cons_self _ _ _
  · intro env now st ls req body issues hfresh hbody hval
    have hrl := slidingWindowLimit_few 86400 3 ls (inspLimiterKey (clientIp req)) now
      (hfew ls _ hfresh)
    refine ⟨?_, ?_⟩
    · rw [inspPOST_invalid_body env now st ls req body issues (by rw [hrl]) hbody hval]
    · rw [inspPOST_limiter, hrl, hfresh]
      exact alookup_cons_self _ _ _

set_option maxRecDepth 100000 in
/-- Witness for C10 at concrete unparseable and invalid requests. -/
theorem c10_witness :
    ((genPOST okEnvGen 9 [] [] noJsonReq).response
        = GenResponse.serverError "Invalid JSON payload" "Error"
      ∧ alookup (genLimiterKey (clientIp noJsonReq)) (genPOST okEnvGen 9 [] [] noJsonReq).limiter
          = some [9]) ∧
    ((genPOST okEnvGen 9 [] [] badGenReq).response
        = GenResponse.validationFailed "Validation failed"
            (renderIssues [⟨["industry"], "Required"⟩])
      ∧ alookup (genLimiterKey (clientIp badGenReq)) (genPOST okEnvGen 9 [] [] badGenReq).limiter
          = some [9]) ∧
    ((inspPOST okEnvInsp 9 [] [] noJsonReq).response
        = InspResponse.serverError "Invalid JSON payload" "Error" (devStack okEnvInsp)
      ∧ alookup (inspLimiterKey (clientIp noJsonReq)) (inspPOST okEnvInsp 9 [] [] noJsonReq).limiter
          = some [9]) ∧
    ((inspPOST okEnvInsp 9 [] [] badInspReq).response
        = InspResponse.validationFailed "Validation failed"
            (renderIssues [⟨["industry"], "Required"⟩])
      ∧ alookup (inspLimiterKey (clientIp badInspReq)) (inspPOST okEnvInsp 9 [] [] badInspReq).limiter
          = some [9]) :=
  ⟨c10_quota_consumed_even_when_parse_or_validation_fails.1 okEnvGen 9 [] [] noJsonReq
     rfl rfl,
   c10_quota_consumed_even_when_parse_or_validation_fails.2.1 okEnvGen 9 [] [] badGenReq
     badGenBody [⟨["industry"], "Required"⟩] rfl rfl rfl,
   c10_quota_consumed_even_when_parse_or_validation_fails.2.2.1 okEnvInsp 9 [] [] noJsonReq
     rfl rfl,
   c10_quota_consumed_even_when_parse_or_validation_fails.2.2.2 okEnvInsp 9 [] [] badInspReq
     badInspBody [⟨["industry"], "Required"⟩] rfl rfl rfl⟩

theorem inspPOST_rejected (env : Env) (now : Nat) (st : Store) (ls : LimiterState)
    (req : Request)
    (h : (slidingWindowLimit 86400 3 ls (inspLimiterKey (clientIp req)) now).success = false) :
    (inspPOST env now st ls req).response
      = InspResponse.rateLimited "Analysis limit reached!"
          (slidingWindowLimit 86400 3 ls (inspLimiterKey (clientIp req)) now).reset
          "/pricing" := by
  simp only [inspPOST]
  simp [h]

theorem sliding_three_then_reject (key : String) (ls0 : LimiterState)
    (t1 t2 t3 t4 : Nat) (h0 : alookup key ls0 = none)
    (h12 : t1 ≤ t2) (h23 : t2 ≤ t3) (h34 : t3 ≤ t4) (hw : t4 < t1 + 86400) :
    slidingWindowLimit 86400 3 ls0 key t1
      = { success := true, reset := t1 + 86400, state := (key, [t1]) :: ls0 } ∧
    slidingWindowLimit 86400 3 ((key, [t1]) :: ls0) key t2
      = { success := true, reset := t2 + 86400,
          state := (key, [t2, t1]) :: (key, [t1]) :: ls0 } ∧
    slidingWindowLimit 86400 3 ((key, [t2, t1]) :: (key, [t1]) :: ls0) key t3
      = { success := true, reset := t3 + 86400,
          state := (key, [t3, t2, t1]) :: (key, [t2, t1]) :: (key, [t1]) :: ls0 } ∧
    slidingWindowLimit 86400 3
        ((key, [t3, t2, t1]) :: (key, [t2, t1]) :: (key, [t1]) :: ls0) key t4
      = { success := false, reset := t1 + 86400,
          state := (key, [t3, t2, t1]) :: (key, [t2, t1]) :: (key, [t1]) :: ls0 } := by
  refine ⟨?_, ?_, ?_, ?_⟩
  · rw [slidingWindowLimit_few 86400 3 ls0 key t1 (by rw [h0]; decide), h0]
    rfl
  · rw [slidingWindowLimit_few 86400 3 ((key, [t1]) :: ls0) key t2
      (by rw [alookup_cons_self]; simp), alookup_cons_self]
    rfl
  · rw [slidingWindowLimit_few 86400 3 ((key, [t2, t1]) :: (key, [t1]) :: ls0) key t3
      (by rw [alookup_cons_self]; simp), alookup_cons_self]
    rfl
  · have hpast := alookup_cons_self key [t3, t2, t1]
      ((key, [t2, t1]) :: (key, [t1]) :: ls0)
    simp only [slidingWindowLimit, hpast, Option.getD_some]
    have f3 : t4 < t3 + 86400 := by omega
    have f2 : t4 < t2 + 86400 := by omega
    have f1 : t4 < t1 + 86400 := by omega
    have m1 : Nat.min t1 t4 = t1 := Nat.min_eq_left (by omega)
    have m2 : Nat.min t2 t1 = t1 := Nat.min_eq_right (by omega)
    have m3 : Nat.min t3 t1 = t1 := Nat.min_eq_right (by omega)
    simp [List.filter, f1, f2, f3, m1, m2, m3]

/-- C2: for every client and endpoint, the first three requests within a
24-hour sliding window are admitted (none is answered 429) and the fourth
request within the same window is answered with the 429 response carrying a
reset timestamp strictly in the future; the two endpoints keep independent
quotas — a full run against one endpoint's limiter key leaves every key of
the other endpoint's namespace untouched, in both directions. -/
theorem c2_three_admitted_then_429_independent_quotas
    (envG1 envG2 envG3 envG4 envI1 envI2 envI3 envI4 : Env)
    (stG1 stG2 stG3 stG4 stI1 stI2 stI3 stI4 : Store)
    (lsG lsI : LimiterState) (ip ipI : String)
    (reqG1 reqG2 reqG3 reqG4 reqI1 reqI2 reqI3 reqI4 : Request)
    (t1 t2 t3 t4 u1 u2 u3 u4 : Nat)
    (hipG1 : clientIp reqG1 = ip) (hipG2 : clientIp reqG2 = ip)
    (hipG3 : clientIp reqG3 = ip) (hipG4 : clientIp reqG4 = ip)
    (h0G : alookup (genLimiterKey ip) lsG = none)
    (h12 : t1 ≤ t2) (h23 : t2 ≤ t3) (h34 : t3 ≤ t4) (hw : t4 < t1 + 86400)
    (hipI1 : clientIp reqI1 = ipI) (hipI2 : clientIp reqI2 = ipI)
    (hipI3 : clientIp reqI3 = ipI) (hipI4 : clientIp reqI4 = ipI)
    (h0I : alookup (inspLimiterKey ipI) lsI = none)
    (g12 : u1 ≤ u2) (g23 : u2 ≤ u3) (g34 : u3 ≤ u4) (gw : u4 < u1 + 86400) :
    (let o1 := genPOST envG1 t1 stG1 lsG reqG1
     let o2 := genPOST envG2 t2 stG2 o1.limiter reqG2
     let o3 := genPOST envG3 t3 stG3 o2.limiter reqG3
     let o4 := genPOST envG4 t4 stG4 o3.limiter reqG4
     o1.response.isRateLimited = false
     ∧ o2.response.isRateLimited = false
     ∧ o3.response.isRateLimited = false
     ∧ (∃ r, o4.response = GenResponse.rateLimited "Free limit reached!" r "/pricing"
          ∧ t4 < r)
     ∧ ∀ ip', alookup (inspLimiterKey ip') o4.limiter
         = alookup (inspLimiterKey ip') lsG) ∧
    (let p1 := inspPOST envI1 u1 stI1 lsI reqI1
     let p2 := inspPOST envI2 u2 stI2 p1.limiter reqI2
     let p3 := inspPOST envI3 u3 stI3 p2.limiter reqI3
     let p4 := inspPOST envI4 u4 stI4 p3.limiter reqI4
     p1.response.isRateLimited = false
     ∧ p2.response.isRateLimited = false
     ∧ p3.response.isRateLimited = false
     ∧ (∃ r, p4.response = InspResponse.rateLimited "Analysis limit reached!" r "/pricing"
          ∧ u4 < r)
     ∧ ∀ ip', alookup (genLimiterKey ip') p4.limiter
         = alookup (genLimiterKey ip') lsI) := by
  constructor
  · obtain ⟨s1, s2, s3, s4⟩ :=
      sliding_three_then_reject (genLimiterKey ip) lsG t1 t2 t3 t4 h0G h12 h23 h34 hw
    have l1 : (genPOST envG1 t1 stG1 lsG reqG1).limiter
        = (genLimiterKey ip, [t1]) :: lsG := by
      rw [genPOST_limiter, hipG1, s1]
    have l2 : (genPOST envG2 t2 stG2 (genPOST envG1 t1 stG1 lsG reqG1).limiter reqG2).limiter
        = (genLimiterKey ip, [t2, t1]) :: (genLimiterKey ip, [t1]) :: lsG := by
      rw [genPOST_limiter, hipG2, l1, s2]
    have l3 : (genPOST envG3 t3 stG3
          (genPOST envG2 t2 stG2 (genPOST envG1 t1 stG1 lsG reqG1).limiter reqG2).limiter
          reqG3).limiter
        = (genLimiterKey ip, [t3, t2, t1]) :: (genLimiterKey ip, [t2, t1])
            :: (genLimiterKey ip, [t1]) :: lsG := by
      rw [genPOST_limiter, hipG3, l2, s3]
    have hfail : (slidingWindowLimit 86400 3
        ((genLimiterKey ip, [t3, t2, t1]) :: (genLimiterKey ip, [t2, t1])
            :: (genLimiterKey ip, [t1]) :: lsG)
        (genLimiterKey (clientIp reqG4)) t4).success = false := by
      rw [hipG4, s4]
    refine ⟨?_, ?_, ?_, ⟨t1 + 86400, ?_, by omega⟩, ?_⟩
    · rw [genPOST_isRateLimited, hipG1, s1]; rfl
    · rw [genPOST_isRateLimited, hipG2, l1, s2]; rfl
    · rw [genPOST_isRateLimited, hipG3, l2, s3]; rfl
    · rw [show (genPOST envG3 t3 stG3
          (genPOST envG2 t2 stG2 (genPOST envG1 t1 stG1 lsG reqG1).limiter reqG2).limiter
          reqG3).limiter = _ from l3, genPOST_rejected envG4 t4 stG4 _ reqG4 hfail,
        hipG4, s4]
    · intro ip'
      have hne := genLimiterKey_ne_inspLimiterKey ip ip'
      rw [genPOST_limiter, hipG4, l3, s4]
      rw [alookup_cons_ne _ _ _ _ hne, alookup_cons_ne _ _ _ _ hne,
        alookup_cons_ne _ _ _ _ hne]
  · obtain ⟨s1, s2, s3, s4⟩ :=
      sliding_three_then_reject (inspLimiterKey ipI) lsI u1 u2 u3 u4 h0I g12 g23 g34 gw
    have l1 : (inspPOST envI1 u1 stI1 lsI reqI1).limiter
        = (inspLimiterKey ipI, [u1]) :: lsI := by
      rw [inspPOST_limiter, hipI1, s1]
    have l2 : (inspPOST envI2 u2 stI2 (inspPOST envI1 u1 stI1 lsI reqI1).limiter reqI2).limiter
        = (inspLimiterKey ipI, [u2, u1]) :: (inspLimiterKey ipI, [u1]) :: lsI := by
      rw [inspPOST_limiter, hipI2, l1, s2]
    have l3 : (inspPOST envI3 u3 stI3
          (inspPOST envI2 u2 stI2 (inspPOST envI1 u1 stI1 lsI reqI1).limiter reqI2).limiter
          reqI3).limiter
        = (inspLimiterKey ipI, [u3, u2, u1]) :: (inspLimiterKey ipI, [u2, u1])
            :: (inspLimiterKey ipI, [u1]) :: lsI := by
      rw [inspPOST_limiter, hipI3, l2, s3]
    have hfail : (slidingWindowLimit 86400 3
        ((inspLimiterKey ipI, [u3, u2, u1]) :: (inspLimiterKey ipI, [u2, u1])
            :: (inspLimiterKey ipI, [u1]) :: lsI)
        (inspLimiterKey (clientIp reqI4)) u4).success = false := by
      rw [hipI4, s4]
    refine ⟨?_, ?_, ?_, ⟨u1 + 86400, ?_, by omega⟩, ?_⟩
    · rw [inspPOST_isRateLimited, hipI1, s1]; rfl
    · rw [inspPOST_isRateLimited, hipI2, l1, s2]; rfl
    · rw [inspPOST_isRateLimited, hipI3, l2, s3]; rfl
    · rw [show (inspPOST envI3 u3 stI3
          (inspPOST envI2 u2 stI2 (inspPOST envI1 u1 stI1 lsI reqI1).limiter reqI2).limiter
          reqI3).limiter = _ from l3, inspPOST_rejected envI4 u4 stI4 _ reqI4 hfail,
        hipI4, s4]
    · intro ip'
      have hne := (genLimiterKey_ne_inspLimiterKey ip' ipI).symm
      rw [inspPOST_limiter, hipI4, l3, s4]
      rw [alookup_cons_ne _ _ _ _ hne, alookup_cons_ne _ _ _ _ hne,
        alookup_cons_ne _ _ _ _ hne]

set_option maxRecDepth 100000 in
/-- Witness for C2: four generation calls at times 10, 20, 30, 40 from a
fresh quota end in the 429 with a future reset and leave a foreign
inspection-namespace key untouched; the fourth of four inspection calls at
times 100 to 400 is also the 429. -/
theorem c2_witness :
    (∃ r, (genPOST okEnvGen 40 []
        (genPOST okEnvGen 30 []
          (genPOST okEnvGen 20 []
            (genPOST okEnvGen 10 [] [] sampleGenReq).limiter sampleGenReq).limiter
          sampleGenReq).limiter sampleGenReq).response
      = GenResponse.rateLimited "Free limit reached!" r "/pricing" ∧ 40 < r) ∧
    alookup (inspLimiterKey "203.0.113.77")
      (genPOST okEnvGen 40 []
        (genPOST okEnvGen 30 []
          (genPOST okEnvGen 20 []
            (genPOST okEnvGen 10 [] [] sampleGenReq).limiter sampleGenReq).limiter
          sampleGenReq).limiter sampleGenReq).limiter
      = alookup (inspLimiterKey "203.0.113.77") ([] : LimiterState) ∧
    (∃ r, (inspPOST okEnvInsp 400 []
        (inspPOST okEnvInsp 300 []
          (inspPOST okEnvInsp 200 []
            (inspPOST okEnvInsp 100 [] [] sampleInspReq).limiter sampleInspReq).limiter
          sampleInspReq).limiter sampleInspReq).response
      = InspResponse.rateLimited "Analysis limit reached!" r "/pricing" ∧ 400 < r) := by
  have h := c2_three_admitted_then_429_independent_quotas
    okEnvGen okEnvGen okEnvGen okEnvGen okEnvInsp okEnvInsp okEnvInsp okEnvInsp
    [] [] [] [] [] [] [] [] [] [] "127.0.0.1" "127.0.0.1"
    sampleGenReq sampleGenReq sampleGenReq sampleGenReq
    sampleInspReq sampleInspReq sampleInspReq sampleInspReq
    10 20 30 40 100 200 300 400
    rfl rfl rfl rfl rfl
    (by decide) (by decide) (by decide) (by decide)
    rfl rfl rfl rfl rfl
    (by decide) (by decide) (by decide) (by decide)
  exact ⟨h.1.2.2.2.1, h.1.2.2.2.2 "203.0.113.77", h.2.2.2.2.1⟩

set_option maxRecDepth 1000000 in
/-- Counterexample for C1 as stated: on the generation endpoint, the second
of two byte-identical valid calls within the TTL is a cache hit, but its
response is the raw stored entry — a 200 whose body has no `meta` key at all,
hence it is not marked `cache: "hit"` (the route returns
`NextResponse.json(cached)` without attaching `meta`). -/
theorem c1_counterexample :
    (genPOST okEnvGen 2000
        (genPOST okEnvGen 1000 [] [] sampleGenReq).store
        (genPOST okEnvGen 1000 [] [] sampleGenReq).limiter
        sampleGenReq).response
      = GenResponse.ok (Json.obj [("ads", sampleAds)])
    ∧ getField (GenResponse.bodyJson
        (GenResponse.ok (Json.obj [("ads", sampleAds)]))) "meta" = none
    ∧ (genPOST okEnvGen 1000 [] [] sampleGenReq).response
      = GenResponse.ok (Json.obj [("ads", sampleAds), ("meta", genMissMeta (some 500))]) :=
  ⟨rfl, rfl, rfl⟩

/-- C1 (amended): calling the same endpoint twice with byte-identical valid
bodies within the cache TTL gives a first response marked `cache: "miss"`
and a second, cache-hit response with identical payload (the `ads` /
`analysis` value) during which the provider is not called; on the inspection
endpoint the hit is marked `cache: "hit"`, while on the generation endpoint
the stored entry is returned unchanged with no cache marker (its body has no
`meta` key). -/
theorem c1_amended_miss_then_hit_identical_payload
    (envG envI : Env) (t1 t2 u1 u2 : Nat) (stG stI : Store)
    (lsG lsI : LimiterState) (reqG reqI : Request) (bodyG bodyI : Json)
    (vG : GenerateAdRequest) (vI : InspectAdRequest) (jG jI : Json)
    (tokG tokI : Option Nat)
    (hbodyG : reqG.body = some bodyG)
    (hvalG : validateGen bodyG = Except.ok vG)
    (hprovG : envG.provider = ProviderResult.parsed jG tokG)
    (hadsG : truthy (getField jG "ads") = true)
    (hreadG : envG.cacheReadFails = false)
    (hwriteG : envG.cacheWriteFails = false)
    (hmissG : alookup (genCacheKey vG) stG = none)
    (hfreshG : alookup (genLimiterKey (clientIp reqG)) lsG = none)
    (hbodyI : reqI.body = some bodyI)
    (hvalI : validateInsp bodyI = Except.ok vI)
    (hprovI : envI.provider = ProviderResult.parsed jI tokI)
    (hgradeI : truthy (getField jI "grade") = true)
    (hsuggI : truthy (getField jI "suggestions") = true)
    (hreadI : envI.cacheReadFails = false)
    (hwriteI : envI.cacheWriteFails = false)
    (hmissI : alookup (inspCacheKey vI) stI = none)
    (hfreshI : alookup (inspLimiterKey (clientIp reqI)) lsI = none) :
    (let o1 := genPOST envG t1 stG lsG reqG
     let o2 := genPOST envG t2 o1.store o1.limiter reqG
     o1.response = GenResponse.ok (Json.obj
         [("ads", (getField jG "ads").getD Json.null), ("meta", genMissMeta tokG)])
     ∧ getField (genMissMeta tokG) "cache" = some (Json.str "miss")
     ∧ o2.response = GenResponse.ok (Json.obj
         [("ads", (getField jG "ads").getD Json.null)])
     ∧ getField (GenResponse.bodyJson o2.response) "meta" = none
     ∧ o2.trace.providerCalled = false) ∧
    (let p1 := inspPOST envI u1 stI lsI reqI
     let p2 := inspPOST envI u2 p1.store p1.limiter reqI
     p1.response = InspResponse.ok (Json.obj
         [("analysis", jI), ("meta", inspMissMeta tokI u1)])
     ∧ getField (inspMissMeta tokI u1) "cache" = some (Json.str "miss")
     ∧ p2.response = InspResponse.ok (Json.obj
         [("analysis", jI), ("meta", Json.obj [("cache", Json.str "hit")])])
     ∧ getField (Json.obj [("analysis", jI), ("meta", Json.obj [("cache", Json.str "hit")])])
         "meta" = some (Json.obj [("cache", Json.str "hit")])
     ∧ p2.trace.providerCalled = false) := by
  constructor
  · have hfewG : ((alookup (genLimiterKey (clientIp reqG)) lsG).getD []).length < 3 := by
      rw [hfreshG]; decide
    have hrl1 : (slidingWindowLimit 86400 3 lsG (genLimiterKey (clientIp reqG)) t1).success
        = true := by
      rw [slidingWindowLimit_few 86400 3 lsG (genLimiterKey (clientIp reqG)) t1 hfewG]
    have ho1 := genPOST_miss_ok envG t1 stG lsG reqG bodyG vG jG tokG hrl1 hbodyG hvalG
      (by simp [hreadG, hmissG]) hprovG hadsG
    have hl1 : (genPOST envG t1 stG lsG reqG).limiter
        = (genLimiterKey (clientIp reqG), [t1]) :: lsG := by
      rw [genPOST_limiter,
        slidingWindowLimit_few 86400 3 lsG (genLimiterKey (clientIp reqG)) t1 hfewG,
        hfreshG]
      rfl
    have hs1 : (genPOST envG t1 stG lsG reqG).store
        = (genCacheKey vG,
            ⟨Json.obj [("ads", (getField jG "ads").getD Json.null)], 3600⟩) :: stG := by
      rw [ho1]; simp [hwriteG]
    have hrl2 : (slidingWindowLimit 86400 3
        ((genLimiterKey (clientIp reqG), [t1]) :: lsG)
        (genLimiterKey (clientIp reqG)) t2).success = true := by
      rw [slidingWindowLimit_few 86400 3 ((genLimiterKey (clientIp reqG), [t1]) :: lsG)
        (genLimiterKey (clientIp reqG)) t2 (by rw [alookup_cons_self]; simp)]
    have ho2 := genPOST_hit envG t2 (genPOST envG t1 stG lsG reqG).store
      (genPOST envG t1 stG lsG reqG).limiter reqG bodyG vG
      ⟨Json.obj [("ads", (getField jG "ads").getD Json.null)], 3600⟩
      (by rw [hl1]; exact hrl2) hbodyG hvalG hreadG
      (by rw [hs1]; exact alookup_cons_self _ _ _)
    refine ⟨?_, rfl, ?_, ?_, ?_⟩
    · rw [ho1]
    · rw [ho2]
    · rw [ho2]; rfl
    · rw [ho2]
  · have hfewI : ((alookup (inspLimiterKey (clientIp reqI)) lsI).getD []).length < 3 := by
      rw [hfreshI]; decide
    have hrl1 : (slidingWindowLimit 86400 3 lsI (inspLimiterKey (clientIp reqI)) u1).success
        = true := by
      rw [slidingWindowLimit_few 86400 3 lsI (inspLimiterKey (clientIp reqI)) u1 hfewI]
    have hp1 := inspPOST_miss_ok envI u1 stI lsI reqI bodyI vI jI tokI hrl1 hbodyI hvalI
      (by simp [hreadI, hmissI]) hprovI hgradeI hsuggI
    have hl1 : (inspPOST envI u1 stI lsI reqI).limiter
        = (inspLimiterKey (clientIp reqI), [u1]) :: lsI := by
      rw [inspPOST_limiter,
        slidingWindowLimit_few 86400 3 lsI (inspLimiterKey (clientIp reqI)) u1 hfewI,
        hfreshI]
      rfl
    have hs1 : (inspPOST envI u1 stI lsI reqI).store
        = (inspCacheKey vI, ⟨Json.obj [("analysis", jI)], 86400⟩) :: stI := by
      rw [hp1]; simp [hwriteI]
    have hrl2 : (slidingWindowLimit 86400 3
        ((inspLimiterKey (clientIp reqI), [u1]) :: lsI)
        (inspLimiterKey (clientIp reqI)) u2).success = true := by
      rw [slidingWindowLimit_few 86400 3 ((inspLimiterKey (clientIp reqI), [u1]) :: lsI)
        (inspLimiterKey (clientIp reqI)) u2 (by rw [alookup_cons_self]; simp)]
    have hp2 := inspPOST_hit envI u2 (inspPOST envI u1 stI lsI reqI).store
      (inspPOST envI u1 stI lsI reqI).limiter reqI bodyI vI
      ⟨Json.obj [("analysis", jI)], 86400⟩
      (by rw [hl1]; exact hrl2) hbodyI hvalI hreadI
      (by rw [hs1]; exact alookup_cons_self _ _ _)
    refine ⟨?_, rfl, ?_, rfl, ?_⟩
    · rw [hp1]
    · rw [hp2]
      simp [spreadMeta, setKey, alookup]
    · rw [hp2]

set_option maxRecDepth 1000000 in
/-- Witness for the amended C1: concrete double calls on both endpoints at
times 1000 and 2000 with the sample bodies. -/
theorem c1_witness :
    ((genPOST okEnvGen 1000 [] [] sampleGenReq).response
      = GenResponse.ok (Json.obj [("ads", sampleAds), ("meta", genMissMeta (some 500))]))
    ∧ ((genPOST okEnvGen 2000 (genPOST okEnvGen 1000 [] [] sampleGenReq).store
          (genPOST okEnvGen 1000 [] [] sampleGenReq).limiter sampleGenReq).response
      = GenResponse.ok (Json.obj [("ads", sampleAds)]))
    ∧ ((genPOST okEnvGen 2000 (genPOST okEnvGen 1000 [] [] sampleGenReq).store
          (genPOST okEnvGen 1000 [] [] sampleGenReq).limiter sampleGenReq).trace.providerCalled
        = false)
    ∧ ((inspPOST okEnvInsp 1000 [] [] sampleInspReq).response
      = InspResponse.ok (Json.obj
          [("analysis", sampleAnalysis), ("meta", inspMissMeta (some 700) 1000)]))
    ∧ ((inspPOST okEnvInsp 2000 (inspPOST okEnvInsp 1000 [] [] sampleInspReq).store
          (inspPOST okEnvInsp 1000 [] [] sampleInspReq).limiter sampleInspReq).response
      = InspResponse.ok (Json.obj
          [("analysis", sampleAnalysis), ("meta", Json.obj [("cache", Json.str "hit")])]))
    ∧ ((inspPOST okEnvInsp 2000 (inspPOST okEnvInsp 1000 [] [] sampleInspReq).store
          (inspPOST okEnvInsp 1000 [] [] sampleInspReq).limiter sampleInspReq).trace.providerCalled
        = false) := by
  have h := c1_amended_miss_then_hit_identical_payload
    okEnvGen okEnvInsp 1000 2000 1000 2000 [] [] [] []
    sampleGenReq sampleInspReq sampleGenBody sampleInspBody
    sampleGenValidated sampleInspValidated
    (Json.obj [("ads", sampleAds)]) sampleAnalysis (some 500) (some 700)
    rfl rfl rfl rfl rfl rfl rfl rfl
    rfl rfl rfl rfl rfl rfl rfl rfl rfl
  exact ⟨h.1.1, h.1.2.2.1, h.1.2.2.2.2, h.2.1, h.2.2.2.1, h.2.2.2.2.2⟩
